import Mathlib

/-!
Shallow embedding, in Lean 4, of the resume-screener server services
(`apiKeyManager.js`, `industryAnalyzer.js` with its `ATSChecker`,
`resumeAnalyzer.js`, `cacheService.js`, `jobQueue.js`), together with
theorems settling the specification claims about them.

Modelling conventions, used throughout:
  - JS strings are `String` or `List Char` (date-like strings that get
    sliced are `List Char`); JS numbers are `ℚ`, with `Math.round x`
    modelled as `⌊x + 1/2⌋`, which agrees with JS on the non-negative
    values arising here; counters that are always integers are `ℕ`.
  - JS object literals become Lean structures.  A dynamic property lookup
    on a literal (`limits[tier]`, `mappedScores[category]`) is a finite
    match on the literal's own keys (prototype-chain lookup is out of
    scope).  A JS field that a code path leaves `undefined` is an
    `Option` that is `none` there; `x || y` on such values takes `y`
    exactly when `x` is absent, `0` or the empty string, mirroring JS
    truthiness on the types at hand.
  - `Date` values never appear as data: the embedded code only ever uses
    `new Date().toISOString()` sliced to a date (`split('T')[0]`) or a
    month (`substring(0,7)`), so functions that consult the clock take
    the ISO string `now` as an explicit parameter.
  - Mutation of the in-memory singleton state (`this.apiKeys.keys`, the
    cache store) is explicit state passing; the JSON-file writes
    (`saveAPIKeys`) mirror that state and are not modelled separately.
  - Field names that collide with Lean keywords are renamed
    (`structure` ↦ `structureScore` / `structureCheck`); everything else
    keeps the source's name.
  - JS regexes are compiled by hand into scanners over `List Char`,
    following the backtracking semantics of the concrete patterns in the
    source (each such definition documents its pattern).
-/

namespace ResumeScreener

/-- JS `Math.round` on non-negative finite numbers: round half toward `+∞`. -/
def jsRound (q : ℚ) : ℤ := ⌊q + 1/2⌋

/-- JS `\s` character class (the `WhiteSpace` and `LineTerminator` sets). -/
def jsWs (c : Char) : Bool :=
  c = ' ' || c = '\t' || c = '\n' || c.toNat = 11 || c.toNat = 12 ||
  c.toNat = 13 || c.toNat = 0xA0 || c.toNat = 0x1680 ||
  (0x2000 ≤ c.toNat && c.toNat ≤ 0x200A) || c.toNat = 0x2028 ||
  c.toNat = 0x2029 || c.toNat = 0x202F || c.toNat = 0x205F ||
  c.toNat = 0x3000 || c.toNat = 0xFEFF

/-- JS `\w` character class: `[A-Za-z0-9_]`. -/
def isWordChar (c : Char) : Bool :=
  (65 ≤ c.toNat && c.toNat ≤ 90) || (97 ≤ c.toNat && c.toNat ≤ 122) ||
  c.isDigit || c = '_'

/-- JS `String.prototype.toLowerCase`, restricted to the ASCII range the
source's patterns use. -/
def lowerStr (l : List Char) : List Char := l.map Char.toLower

/-- JS `hay.includes(needle)`: substring test. -/
def containsSub (needle : List Char) : List Char → Bool
  | [] => needle.isPrefixOf []
  | c :: cs => needle.isPrefixOf (c :: cs) || containsSub needle cs

/-- Case-insensitive test of an alternation of literal substrings, the
shape of patterns like `/experience|work|employment|job/i`. -/
def includesAnyCI (text : List Char) (kws : List String) : Bool :=
  kws.any (fun kw => containsSub (lowerStr kw.toList) (lowerStr text))

/-- Case-insensitive single-literal containment (`textLower.includes(kw)`). -/
def includesCI (text : List Char) (kw : String) : Bool :=
  containsSub (lowerStr kw.toList) (lowerStr text)

/-- JS `now.split('T')[0]` on an ISO timestamp: the characters before the
first `'T'`. -/
def jsDateOnly (s : List Char) : List Char := s.takeWhile (fun c => c ≠ 'T')

/-- JS `s.substring(0, 7)` (the `YYYY-MM` month of a date string). -/
def take7 (s : List Char) : List Char := s.take 7

/-- Functional update of a string-keyed in-memory object map. -/
def updateMap {β : Type} (m : String → Option β) (k : String) (v : β) :
    String → Option β :=
  fun x => if x = k then some v else m x

/-! ## apiKeyManager.js -/

/-- Tier-derived limit set (`getTierLimits` table rows). -/
structure TierLimits where
  dailyRequests : ℕ
  monthlyRequests : ℕ
  bulkAnalysis : Bool
  maxFileSize : ℕ
  maxBatchSize : ℕ
  features : List String
deriving DecidableEq, Repr

def freeLimits : TierLimits :=
  { dailyRequests := 10, monthlyRequests := 100, bulkAnalysis := false,
    maxFileSize := 5 * 1024 * 1024, maxBatchSize := 1,
    features := ["basic_analysis", "industry_detection", "ats_check"] }

def premiumLimits : TierLimits :=
  { dailyRequests := 100, monthlyRequests := 2000, bulkAnalysis := true,
    maxFileSize := 10 * 1024 * 1024, maxBatchSize := 5,
    features := ["basic_analysis", "industry_detection", "ats_check",
                 "detailed_feedback", "export_results"] }

def enterpriseLimits : TierLimits :=
  { dailyRequests := 1000, monthlyRequests := 20000, bulkAnalysis := true,
    maxFileSize := 50 * 1024 * 1024, maxBatchSize := 20,
    features := ["basic_analysis", "industry_detection", "ats_check",
                 "detailed_feedback", "export_results", "api_access",
                 "priority_support"] }

/-- Result of the JS bracket lookup `limits[tier]` followed by
`|| limits.free`: either a row of the `limits` literal, or — when `tier`
names a property the literal inherits from `Object.prototype` — that
inherited member (a function, or `Object.prototype` itself for
`__proto__`), carried here by its name.  Every inherited member is
truthy, so `||` does not replace it with the free row. -/
inductive TierLookup
  | row (l : TierLimits)
  | protoMember (name : String)
deriving DecidableEq, Repr

/-- Property names a plain object literal inherits from
`Object.prototype` (including the `__proto__` accessor), all bound to
truthy values. -/
def objectProtoKeys : List String :=
  ["constructor", "hasOwnProperty", "isPrototypeOf", "propertyIsEnumerable",
   "toLocaleString", "toString", "valueOf", "__defineGetter__",
   "__defineSetter__", "__lookupGetter__", "__lookupSetter__", "__proto__"]

/-- Model: `getTierLimits(tier)`: `limits[tier] || limits.free`.  The
bracket lookup consults the literal's own three keys and then the
prototype chain; only a string that hits neither yields `undefined` and
lets `||` select the free row. -/
def getTierLimits (tier : String) : TierLookup :=
  if tier = "free" then TierLookup.row freeLimits
  else if tier = "premium" then TierLookup.row premiumLimits
  else if tier = "enterprise" then TierLookup.row enterpriseLimits
  else if objectProtoKeys.contains tier then TierLookup.protoMember tier
  else TierLookup.row freeLimits

/-- Model: reading `.dailyRequests` off a stored `limits` value: a number
on a limit row, `undefined` (`none`) on an inherited prototype member. -/
def TierLookup.dailyRequests? : TierLookup → Option ℕ
  | .row l => some l.dailyRequests
  | .protoMember _ => none

/-- Model: reading `.monthlyRequests` off a stored `limits` value. -/
def TierLookup.monthlyRequests? : TierLookup → Option ℕ
  | .row l => some l.monthlyRequests
  | .protoMember _ => none

/-- Model: the JS comparison `a >= b` where `b` may be `undefined`: any
ordering comparison against `undefined` is false. -/
def jsGeUndef (a : ℕ) (b : Option ℕ) : Bool :=
  match b with
  | some n => decide (n ≤ a)
  | none => false

/-- Model: `keyData.usage` of an `ApiKeyRecord`. -/
structure UsageCounters where
  totalRequests : ℕ
  dailyRequests : ℕ
  monthlyRequests : ℕ
  lastResetDate : List Char
deriving DecidableEq, Repr

/-- One `ApiKeyRecord` (`this.apiKeys.keys[apiKey]`).  `lastModified` is
the field some mutating calls attach later; it is absent at creation. -/
structure KeyData where
  key : String
  userId : String
  name : String
  email : Option String
  tier : String
  createdAt : List Char
  lastUsed : Option (List Char)
  isActive : Bool
  limits : TierLookup
  usage : UsageCounters
  lastModified : Option (List Char)
deriving DecidableEq, Repr

/-- One `UserRecord` (`this.users.users[userId]`). -/
structure UserRec where
  userId : String
  name : String
  email : Option String
  tier : String
  apiKeys : List String
  createdAt : List Char
  isActive : Bool
  lastModified : Option (List Char)
deriving DecidableEq, Repr

def KeyStore : Type := String → Option KeyData
def UserStore : Type := String → Option UserRec

/-- Model: `userInfo` argument of `createAPIKey`. -/
structure UserInfo where
  userId : Option String
  name : Option String
  email : Option String
  tier : Option String
deriving DecidableEq, Repr

/-- JS `v || dflt` for a possibly-absent string field. -/
def jsStringOr (v : Option String) (dflt : String) : String :=
  match v with
  | some s => if s = "" then dflt else s
  | none => dflt

/-- JS `v || null` for a possibly-absent string field. -/
def jsStringOrNull (v : Option String) : Option String :=
  match v with
  | some s => if s = "" then none else some s
  | none => none

/-- The `keyData` object built inside `createAPIKey`.  `apiKey` stands for
the generated random key, `defaultUserId` for the generated
`user_${Date.now()}` fallback, `now` for `new Date().toISOString()`. -/
def mkKeyData (apiKey : String) (defaultUserId : String) (ui : UserInfo)
    (now : List Char) : KeyData :=
  { key := apiKey,
    userId := jsStringOr ui.userId defaultUserId,
    name := jsStringOr ui.name "Anonymous User",
    email := jsStringOrNull ui.email,
    tier := jsStringOr ui.tier "free",
    createdAt := now,
    lastUsed := none,
    isActive := true,
    limits := getTierLimits (jsStringOr ui.tier "free"),
    usage := { totalRequests := 0, dailyRequests := 0, monthlyRequests := 0,
               lastResetDate := jsDateOnly now },
    lastModified := none }

/-- Result object of `createAPIKey`. -/
structure CreateResult where
  success : Bool
  apiKey : String
  userId : String
  tier : String
  limits : TierLookup
deriving DecidableEq, Repr

/-- Model: `createAPIKey(userInfo)`: builds the key record, stores it in both
in-memory maps and reports the issued key. -/
def createAPIKey (apiKey : String) (defaultUserId : String) (now : List Char)
    (keys : KeyStore) (users : UserStore) (ui : UserInfo) :
    CreateResult × KeyStore × UserStore :=
  let keyData := mkKeyData apiKey defaultUserId ui now
  let userRec : UserRec :=
    { userId := keyData.userId, name := keyData.name, email := keyData.email,
      tier := keyData.tier, apiKeys := [apiKey], createdAt := keyData.createdAt,
      isActive := true, lastModified := none }
  ({ success := true, apiKey := apiKey, userId := keyData.userId,
     tier := keyData.tier, limits := keyData.limits },
   updateMap keys apiKey keyData,
   updateMap users keyData.userId userRec)

/-- Result object of `validateAPIKey` (the payload fields `limits`,
`usage`, `keyData`, `user` attached on some paths are data passthrough and
not modelled). -/
structure ValidationResult where
  valid : Bool
  error : Option String
deriving DecidableEq, Repr

/-- Model: `validateAPIKey(apiKey)`.  `now` is `new Date().toISOString()`; the
returned store reflects the in-place mutations of `keyData.usage` (the
daily reset runs before the daily-limit check, and — as in the source —
the monthly comparison reads `lastResetDate` only after that reset has
already overwritten it with today). -/
def validateAPIKey (now : List Char) (keys : KeyStore) (apiKey : String) :
    ValidationResult × KeyStore :=
  match keys apiKey with
  | none => ({ valid := false, error := some "Invalid API key" }, keys)
  | some keyData =>
    if keyData.isActive = false then
      ({ valid := false, error := some "API key is inactive" }, keys)
    else
      let today := jsDateOnly now
      let kd1 :=
        if keyData.usage.lastResetDate ≠ today then
          { keyData with usage :=
              { keyData.usage with dailyRequests := 0, lastResetDate := today } }
        else keyData
      if jsGeUndef kd1.usage.dailyRequests
          (TierLookup.dailyRequests? kd1.limits) then
        ({ valid := false, error := some "Daily request limit exceeded" },
         updateMap keys apiKey kd1)
      else
        let currentMonth := take7 now
        let lastUsedMonth := take7 kd1.usage.lastResetDate
        let kd2 :=
          if currentMonth ≠ lastUsedMonth then
            { kd1 with usage := { kd1.usage with monthlyRequests := 0 } }
          else kd1
        if jsGeUndef kd2.usage.monthlyRequests
            (TierLookup.monthlyRequests? kd2.limits) then
          ({ valid := false, error := some "Monthly request limit exceeded" },
           updateMap keys apiKey kd2)
        else
          ({ valid := true, error := none }, updateMap keys apiKey kd2)

/-- Model: `recordUsage(apiKey)`: bumps all three counters and `lastUsed`. -/
def recordUsage (now : List Char) (keys : KeyStore) (apiKey : String) :
    Bool × KeyStore :=
  match keys apiKey with
  | none => (false, keys)
  | some kd =>
    (true,
     updateMap keys apiKey
       { kd with
         usage := { kd.usage with
                    totalRequests := kd.usage.totalRequests + 1,
                    dailyRequests := kd.usage.dailyRequests + 1,
                    monthlyRequests := kd.usage.monthlyRequests + 1 },
         lastUsed := some now })

/-- Model: `updateTier(apiKey, newTier)`: stores the new tier verbatim on key and
user records and recomputes the tier-derived limits. -/
def updateTier (now : List Char) (keys : KeyStore) (users : UserStore)
    (apiKey newTier : String) : Bool × KeyStore × UserStore :=
  match keys apiKey with
  | none => (false, keys, users)
  | some keyData =>
    match users keyData.userId with
    | none => (false, keys, users)
    | some user =>
      (true,
       updateMap keys apiKey
         { keyData with
           tier := newTier
           limits := getTierLimits newTier
           lastModified := some now },
       updateMap users keyData.userId
         { user with tier := newTier, lastModified := some now })

/-- One round of the per-request flow the spec's quota property talks
about: `validateAPIKey` followed, on success, by `recordUsage`. -/
def stepValidateRecord (now : List Char) (keys : KeyStore) (apiKey : String) :
    KeyStore :=
  let r := validateAPIKey now keys apiKey
  if r.1.valid then (recordUsage now r.2 apiKey).2 else r.2

/-- Model: `n` rounds of `stepValidateRecord` on the same day. -/
def runSteps (now : List Char) (apiKey : String) : ℕ → KeyStore → KeyStore
  | 0, st => st
  | n + 1, st => runSteps now apiKey n (stepValidateRecord now st apiKey)

/-! ## industryAnalyzer.js — profile table and IndustryAnalyzer -/

/-- One entry of the static `industries` table.  `preferredLength`'s two
fields are inlined as `prefMin`/`prefMax`. -/
structure IndustryProfile where
  id : String
  name : String
  keywords : List String
  requiredSections : List String
  scoringWeights : List (String × ℚ)
  criticalSkills : List String
  prefMin : ℕ
  prefMax : ℕ
deriving DecidableEq, Repr

def technologyProfile : IndustryProfile :=
  { id := "technology", name := "Technology",
    keywords := ["software", "programming", "development", "coding",
                 "javascript", "python", "java", "react", "node", "database",
                 "api", "cloud", "aws", "docker", "kubernetes", "agile",
                 "scrum"],
    requiredSections := ["skills", "experience", "projects"],
    scoringWeights := [("technical_skills", 35/100), ("experience", 25/100),
                       ("projects", 20/100), ("education", 10/100),
                       ("certifications", 10/100)],
    criticalSkills := ["programming languages", "frameworks", "databases",
                       "version control"],
    prefMin := 1, prefMax := 2 }

def financeProfile : IndustryProfile :=
  { id := "finance", name := "Finance",
    keywords := ["financial", "accounting", "investment", "banking",
                 "analysis", "excel", "modeling", "risk", "compliance",
                 "audit", "cfa", "cpa", "bloomberg", "trading"],
    requiredSections := ["experience", "education", "certifications"],
    scoringWeights := [("experience", 30/100), ("education", 25/100),
                       ("certifications", 20/100), ("analytical_skills", 15/100),
                       ("achievements", 10/100)],
    criticalSkills := ["financial analysis", "excel", "financial modeling",
                       "risk management"],
    prefMin := 1, prefMax := 2 }

def marketingProfile : IndustryProfile :=
  { id := "marketing", name := "Marketing",
    keywords := ["marketing", "digital", "social media", "campaigns",
                 "analytics", "seo", "sem", "content", "brand", "advertising",
                 "google analytics", "facebook ads", "hubspot"],
    requiredSections := ["experience", "skills", "achievements"],
    scoringWeights := [("experience", 25/100), ("creativity", 20/100),
                       ("digital_skills", 20/100), ("achievements", 20/100),
                       ("education", 15/100)],
    criticalSkills := ["digital marketing", "analytics", "content creation",
                       "campaign management"],
    prefMin := 1, prefMax := 2 }

def healthcareProfile : IndustryProfile :=
  { id := "healthcare", name := "Healthcare",
    keywords := ["medical", "healthcare", "clinical", "patient", "nursing",
                 "physician", "hospital", "treatment", "diagnosis",
                 "medical records", "hipaa", "emr"],
    requiredSections := ["education", "certifications", "experience"],
    scoringWeights := [("education", 30/100), ("certifications", 25/100),
                       ("experience", 25/100), ("clinical_skills", 20/100)],
    criticalSkills := ["patient care", "medical knowledge",
                       "clinical experience", "certifications"],
    prefMin := 2, prefMax := 3 }

def salesProfile : IndustryProfile :=
  { id := "sales", name := "Sales",
    keywords := ["sales", "revenue", "targets", "clients", "crm",
                 "negotiation", "lead generation", "closing", "quota",
                 "pipeline", "salesforce", "b2b", "b2c"],
    requiredSections := ["experience", "achievements"],
    scoringWeights := [("achievements", 35/100), ("experience", 30/100),
                       ("communication", 20/100), ("skills", 15/100)],
    criticalSkills := ["sales experience", "client management", "negotiation",
                       "crm systems"],
    prefMin := 1, prefMax := 2 }

def generalProfile : IndustryProfile :=
  { id := "general", name := "General",
    keywords := [],
    requiredSections := ["experience", "education"],
    scoringWeights := [("experience", 30/100), ("education", 20/100),
                       ("skills", 20/100), ("achievements", 15/100),
                       ("formatting", 15/100)],
    criticalSkills := [],
    prefMin := 1, prefMax := 2 }

/-- Model: `Object.entries(industries)` in insertion order. -/
def industriesList : List IndustryProfile :=
  [technologyProfile, financeProfile, marketingProfile, healthcareProfile,
   salesProfile, generalProfile]

/-- Model: `matchCount` of `detectIndustry`: profile keywords found as
case-insensitive substrings of the text. -/
def keywordMatchCount (p : IndustryProfile) (text : List Char) : ℕ :=
  (p.keywords.filter (fun kw =>
    containsSub (lowerStr kw.toList) (lowerStr text))).length

/-- Model: `score` of `detectIndustry`: `matchCount / industry.keywords.length`. -/
def keywordRatio (p : IndustryProfile) (text : List Char) : ℚ :=
  (keywordMatchCount p text : ℚ) / (p.keywords.length : ℚ)

/-- Loop body of `detectIndustry`: skip `general`, and replace the best
match when `score > bestMatch.score && score > 0.1`. -/
def detectStep (text : List Char) (best : String × ℚ) (p : IndustryProfile) :
    String × ℚ :=
  if p.id = "general" then best
  else
    let score := keywordRatio p text
    if best.2 < score ∧ 1/10 < score then (p.id, score) else best

/-- Model: `detectIndustry(text)`. -/
def detectIndustry (text : List Char) : String :=
  (industriesList.foldl (detectStep text) ("general", 0)).1

/-- Model: `getIndustryConfig(industryKey)`: `industries[industryKey] ||
industries.general`. -/
def getIndustryConfig (k : String) : IndustryProfile :=
  if k = "technology" then technologyProfile
  else if k = "finance" then financeProfile
  else if k = "marketing" then marketingProfile
  else if k = "healthcare" then healthcareProfile
  else if k = "sales" then salesProfile
  else generalProfile

/-- The `sectionPatterns` table of `analyzeIndustryFit`: a lookup that is
`false` for a section name outside the table
(`sectionPatterns[section] && …`). -/
def sectionPatternTest (text : List Char) (sectionName : String) : Bool :=
  if sectionName = "skills" then
    includesAnyCI text ["skills", "technical", "competencies"]
  else if sectionName = "experience" then
    includesAnyCI text ["experience", "work", "employment", "job"]
  else if sectionName = "projects" then
    includesAnyCI text ["projects", "portfolio", "work samples"]
  else if sectionName = "education" then
    includesAnyCI text ["education", "degree", "university", "college"]
  else if sectionName = "certifications" then
    includesAnyCI text ["certification", "license", "credential"]
  else if sectionName = "achievements" then
    includesAnyCI text ["achievement", "accomplishment", "award", "recognition"]
  else false

/-- Return object of `analyzeIndustryFit` (the nested
`recommendedLength := industry.preferredLength` is inlined as the two
bounds). -/
structure IndustryAnalysis where
  industryMatch : String
  industryName : String
  sectionsFound : List String
  sectionsRequired : List String
  criticalSkillsFound : List String
  criticalSkillsRequired : List String
  industryKeywordsFound : List String
  industryKeywordsTotal : ℕ
  scoringWeights : List (String × ℚ)
  recommendedLengthMin : ℕ
  recommendedLengthMax : ℕ
deriving DecidableEq, Repr

/-- Model: `analyzeIndustryFit(text, industryKey)`. -/
def analyzeIndustryFit (text : List Char) (industryKey : String) :
    IndustryAnalysis :=
  let industry := getIndustryConfig industryKey
  { industryMatch := industryKey,
    industryName := industry.name,
    sectionsFound := industry.requiredSections.filter
      (fun s => sectionPatternTest text s),
    sectionsRequired := industry.requiredSections,
    criticalSkillsFound := industry.criticalSkills.filter
      (fun sk => containsSub (lowerStr sk.toList) (lowerStr text)),
    criticalSkillsRequired := industry.criticalSkills,
    industryKeywordsFound := industry.keywords.filter
      (fun kw => containsSub (lowerStr kw.toList) (lowerStr text)),
    industryKeywordsTotal := industry.keywords.length,
    scoringWeights := industry.scoringWeights,
    recommendedLengthMin := industry.prefMin,
    recommendedLengthMax := industry.prefMax }

/-- Feedback lists of `generateIndustryFeedback`. -/
structure IndustryFeedback where
  strengths : List String
  improvements : List String
  industrySpecific : List String
deriving DecidableEq, Repr

/-- Model: `generateIndustryFeedback(analysis)`.  For the `general` profile the
keyword ratio is `0/0 = NaN` in JS and both ratio comparisons are false;
this is mirrored by guarding both branches on a non-zero total. -/
def generateIndustryFeedback (analysis : IndustryAnalysis) : IndustryFeedback :=
  let sectionsFb :=
    if analysis.sectionsRequired.length ≤ analysis.sectionsFound.length then
      (["Contains all required sections for " ++ analysis.industryName],
       ([] : List String))
    else
      let missing := analysis.sectionsRequired.filter
        (fun s => !(analysis.sectionsFound.contains s))
      ([], ["Add missing sections: " ++ String.intercalate ", " missing])
  let skillsStrength :=
    if 0 < analysis.criticalSkillsFound.length then
      ["Demonstrates " ++ toString analysis.criticalSkillsFound.length ++
       " critical " ++ analysis.industryName.toLower ++ " skills"]
    else []
  let skillsImprovement :=
    if analysis.criticalSkillsFound.length <
        analysis.criticalSkillsRequired.length then
      let missingSkills := analysis.criticalSkillsRequired.filter
        (fun skill => !(analysis.criticalSkillsFound.any
          (fun found => containsSub (lowerStr skill.toList)
            (lowerStr found.toList))))
      ["Consider highlighting: " ++
       String.intercalate ", " (missingSkills.take 3)]
    else []
  let keywordRatioQ : ℚ :=
    (analysis.industryKeywordsFound.length : ℚ) /
      (analysis.industryKeywordsTotal : ℚ)
  let kwStrength :=
    if analysis.industryKeywordsTotal ≠ 0 ∧ 3/10 < keywordRatioQ then
      ["Strong " ++ analysis.industryName.toLower ++ " keyword presence"]
    else []
  let kwImprovement :=
    if analysis.industryKeywordsTotal ≠ 0 ∧ ¬(3/10 < keywordRatioQ) ∧
        keywordRatioQ < 1/10 then
      ["Include more " ++ analysis.industryName.toLower ++
       "-specific terminology"]
    else []
  let industrySpecific :=
    if analysis.industryMatch = "technology" then
      ["Include GitHub/portfolio links if available",
       "Quantify technical achievements (performance improvements, user growth)"]
    else if analysis.industryMatch = "finance" then
      ["Highlight quantifiable financial impacts",
       "Include relevant certifications (CFA, CPA, FRM)"]
    else if analysis.industryMatch = "marketing" then
      ["Include campaign results and ROI metrics",
       "Mention specific marketing tools and platforms"]
    else if analysis.industryMatch = "healthcare" then
      ["Emphasize patient care experience and outcomes",
       "List all relevant medical certifications"]
    else if analysis.industryMatch = "sales" then
      ["Quantify sales achievements (quotas, revenue growth)",
       "Highlight client relationship management"]
    else []
  { strengths := sectionsFb.1 ++ skillsStrength ++ kwStrength,
    improvements := sectionsFb.2 ++ skillsImprovement ++ kwImprovement,
    industrySpecific := industrySpecific }

/-- The five basic criterion scores.  Source field names: `content`,
`structure` (↦ `structureScore`), `formatting`, `industryAlignment`,
`length` (↦ `lengthScore`).  The source's `mappedScores` also reads a
`completeness` field that this record never carries — that read yields
`undefined` and is modelled as `none` in `mappedScore`. -/
structure BasicScores where
  content : ℚ
  structureScore : ℚ
  formatting : ℚ
  industryAlignment : ℚ
  lengthScore : ℚ
deriving DecidableEq, Repr

/-- The `mappedScores` object of `calculateIndustryScore` as a lookup:
`none` both for a key outside the literal and for the two entries whose
value is the undefined `adjustedScores.completeness`. -/
def mappedScore (adj : BasicScores) (category : String) : Option ℚ :=
  if category = "technical_skills" then some adj.content
  else if category = "experience" then some adj.structureScore
  else if category = "projects" then none
  else if category = "education" then some adj.formatting
  else if category = "certifications" then some adj.lengthScore
  else if category = "creativity" then some adj.content
  else if category = "digital_skills" then some adj.content
  else if category = "achievements" then some adj.content
  else if category = "analytical_skills" then some adj.structureScore
  else if category = "clinical_skills" then none
  else if category = "communication" then some adj.formatting
  else none

/-- Model: `mappedScores[category] || adjustedScores.content` (JS `||` also takes
the fallback when the mapped value is the number `0`). -/
def mappedOrContent (adj : BasicScores) (category : String) : ℚ :=
  match mappedScore adj category with
  | none => adj.content
  | some v => if v = 0 then adj.content else v

/-- The industry-specific score-adjustment block at the top of
`calculateIndustryScore` (in the technology branch,
`industryAnalysis.recommendedLength` is an always-truthy object). -/
def industryAdjustScores (basicScores : BasicScores)
    (ia : IndustryAnalysis) : BasicScores :=
  if ia.industryMatch = "technology" then
    let b :=
      if 2 < ia.criticalSkillsFound.length then
        { basicScores with content := min 10 (basicScores.content + 1) }
      else basicScores
    if b.lengthScore < 7 then
      { b with lengthScore := max 1 (b.lengthScore - 1) }
    else b
  else if ia.industryMatch = "sales" then
    if ia.industryKeywordsFound.any (fun kw =>
        ["quota", "revenue", "target", "achievement"].contains kw.toLower) then
      { basicScores with content := min 10 (basicScores.content + 1) }
    else basicScores
  else if ia.industryMatch = "healthcare" then
    if basicScores.lengthScore < 8 ∧ 3 ≤ ia.sectionsFound.length then
      { basicScores with lengthScore := min 10 (basicScores.lengthScore + 1) }
    else basicScores
  else basicScores

/-- Return value of `calculateIndustryScore`: `{...adjustedScores,
industryAdjustedOverall}`. -/
structure IndustryScoreResult where
  adjusted : BasicScores
  industryAdjustedOverall : ℚ
deriving DecidableEq, Repr

/-- Model: `calculateIndustryScore(basicScores, industryAnalysis)`: adjust the
five scores, normalize the profile's weights by their sum and return the
rounded weighted blend of the mapped scores. -/
def calculateIndustryScore (basicScores : BasicScores)
    (ia : IndustryAnalysis) : IndustryScoreResult :=
  let adjusted := industryAdjustScores basicScores ia
  let totalWeight := (ia.scoringWeights.map Prod.snd).sum
  let weightedScore := (ia.scoringWeights.map
    (fun wc => mappedOrContent adjusted wc.1 * (wc.2 / totalWeight))).sum
  { adjusted := adjusted,
    industryAdjustedOverall := (jsRound weightedScore : ℚ) }

/-! ## Regex scanners shared by the ATS checker and the fallback scorer -/

/-- Does any suffix of the list (the match attempts of `RegExp.test` at
each start position, including the end) satisfy `f`? -/
def anySuffix (f : List Char → Bool) : List Char → Bool
  | [] => f []
  | c :: cs => f (c :: cs) || anySuffix f cs

/-- Position scan that also tracks the previous character, as needed for
the `\b` assertion (`none` at the very start of the text). -/
def anyPosWithPrevAux (f : Option Char → List Char → Bool) :
    Option Char → List Char → Bool
  | prev, [] => f prev []
  | prev, c :: cs => f prev (c :: cs) || anyPosWithPrevAux f (some c) cs

def anyPosWithPrev (f : Option Char → List Char → Bool) (l : List Char) :
    Bool :=
  anyPosWithPrevAux f none l

/-- Run detection for `/\t{2,}/`-style patterns: is there a run of at
least `need` consecutive characters satisfying `p`? -/
def hasRunAux (p : Char → Bool) (need : ℕ) : List Char → ℕ → Bool
  | [], _ => false
  | c :: cs, run =>
    if p c then
      if need ≤ run + 1 then true else hasRunAux p need cs (run + 1)
    else hasRunAux p need cs 0

def hasRun (p : Char → Bool) (need : ℕ) (l : List Char) : Bool :=
  hasRunAux p need l 0

/-- Number of maximal runs of characters satisfying `p`. -/
def countRunsAux (p : Char → Bool) : List Char → Bool → ℕ
  | [], _ => 0
  | c :: cs, inRun =>
    if p c then
      if inRun then countRunsAux p cs true else 1 + countRunsAux p cs true
    else countRunsAux p cs false

def countRuns (p : Char → Bool) (l : List Char) : ℕ := countRunsAux p l false

/-- Model: `text.split(regex).length` for a one-character-class-plus regex like
`/\s+/` or `/[.!?]+/`: JS yields one array element per separator run plus
one, counting the empty strings at the ends. -/
def jsSplitCount (p : Char → Bool) (l : List Char) : ℕ := countRuns p l + 1

/-- Model: `text.split(regex)` itself for such a regex, with the empty boundary
elements JS produces.  Fuel-driven; `fuel = l.length + 1` always
suffices because every step consumes at least one character. -/
def splitRunsAux (p : Char → Bool) : ℕ → List Char → List Char →
    List (List Char)
  | _, [], cur => [cur.reverse]
  | 0, _ :: _, cur => [cur.reverse]
  | fuel + 1, c :: cs, cur =>
    if p c then cur.reverse :: splitRunsAux p fuel (cs.dropWhile p) []
    else splitRunsAux p fuel cs (c :: cur)

def jsSplitRuns (p : Char → Bool) (l : List Char) : List (List Char) :=
  splitRunsAux p (l.length + 1) l []

/-- Model: `text.split('\n')` (string separator: no run merging). -/
def splitOnChar (sep : Char) : List Char → List (List Char)
  | [] => [[]]
  | c :: cs =>
    if c = sep then [] :: splitOnChar sep cs
    else
      match splitOnChar sep cs with
      | [] => [[c]]
      | t :: ts => (c :: t) :: ts

/-- JS `String.prototype.trim`. -/
def jsTrim (l : List Char) : List Char :=
  ((l.dropWhile jsWs).reverse.dropWhile jsWs).reverse

/-- Number of non-overlapping occurrences of a (non-empty) literal
pattern, i.e. `(text.match(new RegExp(kw, 'g')) || []).length`.
Fuel-driven; each step consumes at least one character. -/
def countOccursAux (kw : List Char) : ℕ → List Char → ℕ
  | 0, _ => 0
  | _ + 1, [] => 0
  | fuel + 1, c :: cs =>
    if kw.isPrefixOf (c :: cs) then
      1 + countOccursAux kw fuel (cs.drop (kw.length - 1))
    else countOccursAux kw fuel cs

def countOccurs (kw text : List Char) : ℕ := countOccursAux kw text.length text

/-! ## resumeAnalyzer.js — basic metrics shape -/

/-- Model: `metrics.sections` flags of `calculateBasicMetrics`. -/
structure SectionFlags where
  contact : Bool
  experience : Bool
  education : Bool
  skills : Bool
  summary : Bool
deriving DecidableEq, Repr

/-- Model: `metrics.formatting` flags of `calculateBasicMetrics`. -/
structure FormattingFlags where
  hasBulletPoints : Bool
  hasNumbers : Bool
  hasEmails : Bool
  hasPhones : Bool
deriving DecidableEq, Repr

/-- The metrics object produced by `calculateBasicMetrics` and passed to
the fallback scorer and the ATS checker. -/
structure BasicMetrics where
  wordCount : ℕ
  lineCount : ℕ
  characterCount : ℕ
  estimatedPages : ℕ
  sections : SectionFlags
  formatting : FormattingFlags
deriving DecidableEq, Repr

/-! ## industryAnalyzer.js — ATSChecker -/

/-- Result of `checkFormatting`. -/
structure FormatCheck where
  score : ℚ
  issues : List String
  passed : Bool
deriving DecidableEq, Repr

/-- Model: `/[^\x00-\x7F]/.test(text)`. -/
def hasNonAscii (text : List Char) : Bool := text.any (fun c => 127 < c.toNat)

/-- Model: `/\t{2,}|\s{4,}/.test(text)`. -/
def hasTableFormatting (text : List Char) : Bool :=
  hasRun (fun c => c = '\t') 2 text || hasRun jsWs 4 text

/-- Count of `[•▪▫‣⁃◦]` glyphs (`text.match(/[•▪▫‣⁃◦]/g).length`). -/
def bulletSymbolCount (text : List Char) : ℕ :=
  (text.filter (fun c =>
    c = '•' || c = '▪' || c = '▫' || c = '‣' || c = '⁃' || c = '◦')).length

/-- Match attempt for `page \d+ of \d+` at one position of the lowered
text (the `\d+`s are maximal-munch safe: no later literal starts with a
digit or can absorb one). -/
def pageOfAt (l : List Char) : Bool :=
  if ("page ".toList).isPrefixOf l then
    let r1 := l.drop 5
    match r1 with
    | c :: _ =>
      c.isDigit &&
        (let r2 := r1.dropWhile Char.isDigit
         (" of ".toList).isPrefixOf r2 &&
           (match r2.drop 4 with
            | d :: _ => d.isDigit
            | [] => false))
    | [] => false
  else false

/-- Model: `/page \d+ of \d+|confidential|proprietary/i.test(text)`. -/
def hasHeaderFooterIndicator (text : List Char) : Bool :=
  anySuffix pageOfAt (lowerStr text) ||
  containsSub ("confidential".toList) (lowerStr text) ||
  containsSub ("proprietary".toList) (lowerStr text)

/-- Model: `checkFormatting(text)`: start at 10 and deduct one point per
triggered rule; the returned score is floored at 1 while `passed`
compares the unfloored value with 8. -/
def checkFormatting (text : List Char) : FormatCheck :=
  let d1 : ℚ := if hasNonAscii text then 1 else 0
  let i1 := if hasNonAscii text then
    ["Contains special characters that may not parse correctly"] else []
  let d2 : ℚ := if hasTableFormatting text then 1 else 0
  let i2 := if hasTableFormatting text then
    ["May contain table formatting that ATS cannot read"] else []
  let d3 : ℚ := if 20 < bulletSymbolCount text then 1 else 0
  let i3 := if 20 < bulletSymbolCount text then
    ["Excessive use of special bullet points"] else []
  let d4 : ℚ := if hasHeaderFooterIndicator text then 1 else 0
  let i4 := if hasHeaderFooterIndicator text then
    ["May contain headers/footers that confuse ATS"] else []
  let value : ℚ := 10 - d1 - d2 - d3 - d4
  { score := max 1 value, issues := i1 ++ i2 ++ i3 ++ i4,
    passed := decide (8 ≤ value) }

/-- Result of `checkKeywords`. -/
structure KeywordsCheck where
  score : ℚ
  keywordDensity : ℚ
  foundKeywords : ℕ
  totalKeywords : ℕ
  issues : List String
  passed : Bool
deriving DecidableEq, Repr

def commonKeywords : List String :=
  ["experience", "skills", "education", "work", "job", "company",
   "project", "team", "management", "development", "analysis"]

/-- Model: `checkKeywords(text)`.  `text.split(/\s+/).length` counts boundary
empties, so the word count is never 0 and the stuffing ratio is always
defined. -/
def checkKeywords (text : List Char) : KeywordsCheck :=
  let textLower := lowerStr text
  let foundKeywords := commonKeywords.filter
    (fun kw => containsSub kw.toList textLower)
  let keywordDensity : ℚ :=
    (foundKeywords.length : ℚ) / (commonKeywords.length : ℚ)
  let score0 : ℚ := (jsRound (keywordDensity * 10) : ℚ)
  let issues1 :=
    if keywordDensity < 3/10 then
      ["Low keyword density - add more industry-relevant terms"] else []
  let wordCount := jsSplitCount jsWs text
  let totalKeywordOccurrences :=
    (commonKeywords.map (fun kw => countOccurs kw.toList textLower)).sum
  let stuffing :=
    (1 : ℚ)/10 < (totalKeywordOccurrences : ℚ) / (wordCount : ℚ)
  let score1 := if stuffing then score0 - 2 else score0
  let issues2 := if stuffing then ["Possible keyword stuffing detected"] else []
  { score := max 1 (min 10 score1),
    keywordDensity := keywordDensity,
    foundKeywords := foundKeywords.length,
    totalKeywords := commonKeywords.length,
    issues := issues1 ++ issues2,
    passed := decide (6 ≤ score1) }

/-- Result of `checkStructure`. -/
structure StructureCheck where
  score : ℚ
  sectionsFound : ℕ
  sectionsExpected : ℕ
  issues : List String
  passed : Bool
deriving DecidableEq, Repr

/-- The five `sectionHeaders` alternation patterns of `checkStructure`. -/
def structureSectionHeaders : List (List String) :=
  [["summary", "objective", "profile"],
   ["experience", "employment", "work history"],
   ["education", "academic"],
   ["skills", "competencies", "technical"],
   ["contact", "personal information"]]

def descInsert (x : ℕ) : List ℕ → List ℕ
  | [] => [x]
  | y :: ys => if y < x then x :: y :: ys else y :: descInsert x ys

/-- Model: `[...years].sort((a, b) => b - a)`: descending sort. -/
def sortDesc (l : List ℕ) : List ℕ := l.foldr descInsert []

/-- All matches of `/\b(19|20)\d{2}\b/g`, as numbers, via a left-to-right
scan with `\b` checked against the previous character; after a match the
scan resumes past the four digits. -/
def extractYearsAux : ℕ → Option Char → List Char → List ℕ
  | 0, _, _ => []
  | _ + 1, _, [] => []
  | fuel + 1, prev, c :: cs =>
    let bOk := match prev with
               | none => true
               | some p => !(isWordChar p)
    match cs with
    | c2 :: c3 :: c4 :: rest =>
      if bOk &&
          (((c = '1' && c2 = '9') || (c = '2' && c2 = '0')) &&
            c3.isDigit && c4.isDigit &&
            (match rest with
             | [] => true
             | r :: _ => !(isWordChar r))) then
        ((c.toNat - 48) * 1000 + (c2.toNat - 48) * 100 +
         (c3.toNat - 48) * 10 + (c4.toNat - 48)) ::
          extractYearsAux fuel (some c4) rest
      else extractYearsAux fuel (some c) cs
    | _ => extractYearsAux fuel (some c) cs

def extractYears (text : List Char) : List ℕ :=
  extractYearsAux (text.length + 1) none text

/-- Model: `checkStructure(text, metrics)` (the `metrics` parameter is unused in
the source body, as is the computed `longLines` count). -/
def checkStructure (text : List Char) (metrics : BasicMetrics) :
    StructureCheck :=
  let foundSections := structureSectionHeaders.filter
    (fun pats => includesAnyCI text pats)
  let d1 : ℚ := if foundSections.length < 3 then 2 else 0
  let i1 := if foundSections.length < 3 then
    ["Missing clear section headers"] else []
  let lines := (splitOnChar '\n' text).filter
    (fun ln => 0 < (jsTrim ln).length)
  let shortLines := (lines.filter (fun ln => (jsTrim ln).length < 50)).length
  let d2 : ℚ :=
    if (6 : ℚ)/10 < (shortLines : ℚ) / (lines.length : ℚ) then 1 else 0
  let i2 := if (6 : ℚ)/10 < (shortLines : ℚ) / (lines.length : ℚ) then
    ["Too many short lines may indicate poor structure"] else []
  let years := extractYears text
  let outOfOrder := 2 ≤ years.length ∧ ¬(years = sortDesc years)
  let d3 : ℚ := if outOfOrder then 1 else 0
  let i3 := if outOfOrder then
    ["Consider reverse chronological order for work experience"] else []
  let score : ℚ := 10 - d1 - d2 - d3
  { score := max 1 score,
    sectionsFound := foundSections.length,
    sectionsExpected := structureSectionHeaders.length,
    issues := i1 ++ i2 ++ i3,
    passed := decide (7 ≤ score) }

/-- Result of `checkReadability`.  `avgSentenceLength` is
`Math.round(avg)`; when the text has no sentences the JS value is `NaN`
and is modelled as `0` (every comparison against it is false either
way). -/
structure ReadabilityCheck where
  score : ℚ
  avgSentenceLength : ℚ
  actionVerbsFound : ℕ
  quantifiableMetrics : ℕ
  issues : List String
  passed : Bool
deriving DecidableEq, Repr

def actionVerbs : List String :=
  ["achieved", "managed", "led", "developed", "created", "implemented",
   "improved", "increased", "reduced", "optimized", "designed", "built"]

/-- Model: `new RegExp('\\b' + verb, 'i').test(text)`. -/
def bWordPrefixCI (kw : String) (text : List Char) : Bool :=
  anyPosWithPrev
    (fun prev l =>
      (match prev with
       | none => true
       | some p => !(isWordChar p)) && kw.toList.isPrefixOf (lowerStr l))
    text

/-- Resolution of the optional suffix and closing `\b` of
`/\b\d+([.,]\d+)?(%|k|million|billion|dollars?|\$)?\b/` once the digits
are consumed: try the alternatives in source order, each followed by the
boundary test, then the empty suffix.  Returns the number of suffix
characters the successful match consumes. -/
def numSuffixLen (l : List Char) : Option ℕ :=
  let wordAt : List Char → Bool := fun r =>
    match r with
    | c :: _ => isWordChar c
    | [] => false
  if ("%".toList).isPrefixOf l && wordAt (l.drop 1) then some 1
  else if ("k".toList).isPrefixOf l && !(wordAt (l.drop 1)) then some 1
  else if ("million".toList).isPrefixOf l && !(wordAt (l.drop 7)) then some 7
  else if ("billion".toList).isPrefixOf l && !(wordAt (l.drop 7)) then some 7
  else if ("dollars".toList).isPrefixOf l && !(wordAt (l.drop 7)) then some 7
  else if ("dollar".toList).isPrefixOf l && !(wordAt (l.drop 6)) then some 6
  else if ("$".toList).isPrefixOf l && wordAt (l.drop 1) then some 1
  else if !(wordAt l) then some 0
  else none

def headIsDigit (l : List Char) : Bool :=
  match l with
  | c :: _ => c.isDigit
  | [] => false

/-- Count of the global matches of the quantifiable-number pattern
`/\b\d+([.,]\d+)?(%|k|million|billion|dollars?|\$)?\b/g`.  The scan
mirrors the engine's backtracking on this concrete pattern: the digit
runs are maximal (shortening them strands a digit before a
non-digit-capable continuation), a decimal group whose tail fails is
dropped so the match ends after the integer digits (the separator is a
non-word character, so that boundary always holds), and a failed suffix
falls back through `numSuffixLen`'s alternative order. -/
def countNumbersAux : ℕ → Option Char → List Char → ℕ
  | 0, _, _ => 0
  | _ + 1, _, [] => 0
  | fuel + 1, prev, c :: cs =>
    let bOk := match prev with
               | none => true
               | some p => !(isWordChar p)
    if bOk && c.isDigit then
      let ds := cs.takeWhile Char.isDigit
      let r1 := cs.drop ds.length
      let lastD := (c :: ds).getLastD c
      if (match r1 with
          | sep :: _ => (sep = '.' || sep = ',')
          | [] => false) && headIsDigit (r1.drop 1) then
        let r2 := r1.drop 1
        let ds2 := r2.takeWhile Char.isDigit
        let r3 := r2.drop ds2.length
        match numSuffixLen r3 with
        | some k =>
          let np := match (r3.take k).getLast? with
                    | some x => some x
                    | none => some (ds2.getLastD '0')
          1 + countNumbersAux fuel np (r3.drop k)
        | none => 1 + countNumbersAux fuel (some lastD) r1
      else
        match numSuffixLen r1 with
        | some k =>
          let np := match (r1.take k).getLast? with
                    | some x => some x
                    | none => some lastD
          1 + countNumbersAux fuel np (r1.drop k)
        | none => countNumbersAux fuel (some c) cs
    else countNumbersAux fuel (some c) cs

def countNumberMatches (text : List Char) : ℕ :=
  countNumbersAux (text.length + 1) none text

/-- Model: `checkReadability(text, metrics)` (`metrics` unused in the body). -/
def checkReadability (text : List Char) (metrics : BasicMetrics) :
    ReadabilityCheck :=
  let sentences := (jsSplitRuns (fun c => c = '.' || c = '!' || c = '?') text).filter
    (fun s => 0 < (jsTrim s).length)
  let totalWords : ℕ := (sentences.map (fun s => jsSplitCount jsWs s)).sum
  let avgSentenceLength : ℚ := (totalWords : ℚ) / (sentences.length : ℚ)
  let d1 : ℚ := if 25 < avgSentenceLength then 1 else 0
  let i1 := if 25 < avgSentenceLength then
    ["Sentences may be too long for ATS parsing"] else []
  let foundActionVerbs := actionVerbs.filter (fun v => bWordPrefixCI v text)
  let d2 : ℚ := if foundActionVerbs.length < 3 then 1 else 0
  let i2 := if foundActionVerbs.length < 3 then
    ["Add more action verbs to describe achievements"] else []
  let numbers := countNumberMatches text
  let d3 : ℚ := if numbers < 3 then 1 else 0
  let i3 := if numbers < 3 then
    ["Include more quantifiable achievements and metrics"] else []
  let score : ℚ := 10 - d1 - d2 - d3
  { score := max 1 score,
    avgSentenceLength := (jsRound avgSentenceLength : ℚ),
    actionVerbsFound := foundActionVerbs.length,
    quantifiableMetrics := numbers,
    issues := i1 ++ i2 ++ i3,
    passed := decide (7 ≤ score) }

/-- Result of `checkFileFormat`. -/
structure FileFormatCheck where
  score : ℚ
  format : String
  issues : List String
  passed : Bool
  recommendation : String
deriving DecidableEq, Repr

/-- Model: `checkFileFormat()`: constant. -/
def checkFileFormat : FileFormatCheck :=
  { score := 8, format := "PDF/DOC", issues := [], passed := true,
    recommendation := "PDF and DOC formats are generally ATS-friendly" }

/-- The five sub-check results (`checks`).  Source field `structure` ↦
`structureCheck`. -/
structure ATSChecks where
  formatting : FormatCheck
  keywords : KeywordsCheck
  structureCheck : StructureCheck
  readability : ReadabilityCheck
  fileFormat : FileFormatCheck
deriving DecidableEq, Repr

/-- Model: `calculateATSScore(checks)`: weighted sum accumulated in the
`Object.keys(weights)` insertion order, then `Math.round`. -/
def calculateATSScore (checks : ATSChecks) : ℚ :=
  (jsRound
    (checks.formatting.score * (25/100) + checks.keywords.score * (25/100) +
     checks.structureCheck.score * (25/100) +
     checks.readability.score * (20/100) +
     checks.fileFormat.score * (5/100)) : ℚ)

/-- One recommendation block of `generateATSRecommendations`. -/
structure Recommendation where
  category : String
  priority : String
  suggestions : List String
deriving DecidableEq, Repr

def generalATSTips : Recommendation :=
  { category := "General ATS Tips", priority := "Low",
    suggestions :=
      ["Save resume as both PDF and Word document versions",
       "Use standard section headings that ATS systems recognize",
       "Avoid images, graphics, and fancy formatting",
       "Include a skills section with relevant keywords",
       "Spell out abbreviations at least once"] }

/-- Model: `generateATSRecommendations(checks)`. -/
def generateATSRecommendations (checks : ATSChecks) : List Recommendation :=
  (if checks.formatting.passed then [] else
    [{ category := "Formatting", priority := "High",
       suggestions :=
         ["Use simple, clean formatting without tables or complex layouts",
          "Avoid special characters and symbols",
          "Use standard fonts like Arial, Calibri, or Times New Roman"] }]) ++
  (if checks.keywords.passed then [] else
    [{ category := "Keywords", priority := "High",
       suggestions :=
         ["Include more industry-specific keywords from job descriptions",
          "Use both acronyms and full terms (e.g., \"AI\" and \"Artificial Intelligence\")",
          "Naturally integrate keywords throughout your experience descriptions"] }]) ++
  (if checks.structureCheck.passed then [] else
    [{ category := "Structure", priority := "Medium",
       suggestions :=
         ["Use clear section headers (Experience, Education, Skills)",
          "Organize experience in reverse chronological order",
          "Use consistent formatting for dates and job titles"] }]) ++
  (if checks.readability.passed then [] else
    [{ category := "Content", priority := "Medium",
       suggestions :=
         ["Start bullet points with strong action verbs",
          "Include specific numbers and metrics to quantify achievements",
          "Keep sentences concise and focused"] }]) ++
  [generalATSTips]

/-- Return object of `checkATSCompatibility`. -/
structure ATSResult where
  score : ℚ
  checks : ATSChecks
  recommendations : List Recommendation
  isATSFriendly : Bool
deriving DecidableEq, Repr

/-- Model: `checkATSCompatibility(text, metrics)`. -/
def checkATSCompatibility (text : List Char) (metrics : BasicMetrics) :
    ATSResult :=
  let checks : ATSChecks :=
    { formatting := checkFormatting text,
      keywords := checkKeywords text,
      structureCheck := checkStructure text metrics,
      readability := checkReadability text metrics,
      fileFormat := checkFileFormat }
  let overallScore := calculateATSScore checks
  { score := overallScore,
    checks := checks,
    recommendations := generateATSRecommendations checks,
    isATSFriendly := decide (7 ≤ overallScore) }

/-! ## resumeAnalyzer.js — extraction and fallback scoring -/

/-- Match attempt for `/\d+\s*(years?|months?)/i` at one position: a
digit, the rest of the digit run, optional whitespace, then `year` or
`month` (the trailing `s?` cannot affect `test`).  Maximal munch is safe
for this pattern: neither `\s*` nor the literals can consume a digit, and
no shorter whitespace run can expose the literals. -/
def yearsPhraseAt (l : List Char) : Bool :=
  match l with
  | c :: cs =>
    if c.isDigit then
      let rest := (cs.dropWhile Char.isDigit).dropWhile jsWs
      ("year".toList).isPrefixOf (lowerStr rest) ||
        ("month".toList).isPrefixOf (lowerStr rest)
    else false
  | [] => false

/-- Model: `/\d+\s*(years?|months?)/i.test(text)`. -/
def hasYearsPhrase (text : List Char) : Bool := anySuffix yearsPhraseAt text

/-- Model: `feedback` object shared by both analysis paths. -/
structure Feedback where
  strengths : List String
  improvements : List String
  industrySpecific : List String
  summary : String
deriving DecidableEq, Repr

/-- Return object of `fallbackAnalysis`. -/
structure FallbackResult where
  overallScore : ℚ
  scores : BasicScores
  feedback : Feedback
deriving DecidableEq, Repr

/-- Model: `generateStrengths(metrics)`. -/
def generateStrengths (metrics : BasicMetrics) : List String :=
  (if metrics.sections.experience then ["Includes work experience section"] else []) ++
  (if metrics.sections.education then ["Contains education information"] else []) ++
  (if metrics.sections.skills then ["Lists relevant skills"] else []) ++
  (if metrics.formatting.hasBulletPoints then ["Uses bullet points for readability"] else []) ++
  (if metrics.estimatedPages ≤ 2 then ["Appropriate length"] else [])

/-- Model: `generateImprovements(metrics)`. -/
def generateImprovements (metrics : BasicMetrics) : List String :=
  (if metrics.sections.summary then [] else ["Consider adding a professional summary"]) ++
  (if metrics.sections.skills then [] else ["Add a skills section"]) ++
  (if metrics.formatting.hasBulletPoints then [] else ["Use bullet points to improve readability"]) ++
  (if 2 < metrics.estimatedPages then ["Consider reducing length to 1-2 pages"] else []) ++
  (if metrics.wordCount < 200 then ["Expand content with more details"] else [])

/-- Model: `contentScore` accumulator of `fallbackAnalysis` before clamping. -/
def fallbackContentScore (text : List Char) (metrics : BasicMetrics) : ℚ :=
  5 + (if 200 < metrics.wordCount then 1 else 0) +
    (if 400 < metrics.wordCount then 1 else 0) +
    (if hasYearsPhrase text then 1 else 0) +
    (if includesAnyCI text
        ["achieved", "improved", "increased", "reduced", "managed", "led"]
     then 1 else 0)

/-- Model: `industryKeywordRatio` of `fallbackAnalysis`:
`found / Math.max(1, total)`. -/
def fallbackKeywordRatio (ia : IndustryAnalysis) : ℚ :=
  (ia.industryKeywordsFound.length : ℚ) /
    ((max 1 ia.industryKeywordsTotal : ℕ) : ℚ)

/-- Model: `min(10, 3 + round(ratio·7))`, the alignment score before the
critical-skills bonus. -/
def fallbackAlignBase (ia : IndustryAnalysis) : ℚ :=
  min 10 (3 + (jsRound (fallbackKeywordRatio ia * 7) : ℚ))

/-- Model: `industryAlignmentScore` of `fallbackAnalysis` before the final
clamping: the base plus the critical-skills bonus (which in the source is
added after the base's `min`). -/
def fallbackIndustryAlignmentScore (ia : IndustryAnalysis) : ℚ :=
  if 0 < ia.criticalSkillsFound.length then
    fallbackAlignBase ia + min 2 (ia.criticalSkillsFound.length : ℚ)
  else fallbackAlignBase ia

/-- Model: `sectionCount` of `fallbackAnalysis`: how many of the five metric
section flags are set (`Object.values(metrics.sections)` order). -/
def fallbackSectionCount (metrics : BasicMetrics) : ℕ :=
  ([metrics.sections.contact, metrics.sections.experience,
    metrics.sections.education, metrics.sections.skills,
    metrics.sections.summary].filter (fun b => b)).length

/-- Model: `min(10, 3 + sectionCount)`, the structure score before the
required-sections bonus. -/
def fallbackStructureBase (metrics : BasicMetrics) : ℚ :=
  min 10 (3 + (fallbackSectionCount metrics : ℚ))

/-- Model: `structureScore` of `fallbackAnalysis` before the final clamping:
the base plus the required-sections bonus. -/
def fallbackStructureScore (metrics : BasicMetrics) (ia : IndustryAnalysis) :
    ℚ :=
  if ia.sectionsRequired.length ≤ ia.sectionsFound.length then
    fallbackStructureBase metrics + 1
  else fallbackStructureBase metrics

/-- Model: `formattingScore` accumulator of `fallbackAnalysis`. -/
def fallbackFormattingScore (metrics : BasicMetrics) : ℚ :=
  5 + (if metrics.formatting.hasBulletPoints then 1 else 0) +
    (if metrics.formatting.hasEmails then 1 else 0) +
    (if metrics.formatting.hasPhones then 1 else 0) +
    (if metrics.formatting.hasNumbers then 1 else 0)

/-- Model: `lengthScore` of `fallbackAnalysis`: compare the page estimate with
the industry's preferred range. -/
def fallbackLengthScore (metrics : BasicMetrics) (ia : IndustryAnalysis) : ℚ :=
  if ia.recommendedLengthMin ≤ metrics.estimatedPages ∧
      metrics.estimatedPages ≤ ia.recommendedLengthMax then 9
  else if metrics.estimatedPages = ia.recommendedLengthMax + 1 then 7
  else if ia.recommendedLengthMax + 1 < metrics.estimatedPages then 4
  else 5

/-- The `scores` record `fallbackAnalysis` returns (each accumulator
clamped by `Math.min(10, ·)`, `length` used as computed). -/
def fallbackScores (text : List Char) (metrics : BasicMetrics)
    (ia : IndustryAnalysis) : BasicScores :=
  { content := min 10 (fallbackContentScore text metrics),
    structureScore := min 10 (fallbackStructureScore metrics ia),
    formatting := min 10 (fallbackFormattingScore metrics),
    industryAlignment := min 10 (fallbackIndustryAlignmentScore ia),
    lengthScore := fallbackLengthScore metrics ia }

/-- Model: `fallbackAnalysis(text, metrics, industryAnalysis)`: the
deterministic rule-based scorer.  `overallScore` is
`industryAdjustedOverall || round(average of the five scores)` — the JS
`||` takes the average only if the blend is the number `0`. -/
def fallbackAnalysis (text : List Char) (metrics : BasicMetrics)
    (ia : IndustryAnalysis) : FallbackResult :=
  let scores := fallbackScores text metrics ia
  let overall := calculateIndustryScore scores ia
  let industryFeedback := generateIndustryFeedback ia
  { overallScore :=
      if overall.industryAdjustedOverall = 0 then
        (jsRound ((scores.content + scores.structureScore +
          scores.formatting + scores.industryAlignment +
          scores.lengthScore) / 5) : ℚ)
      else overall.industryAdjustedOverall,
    scores := scores,
    feedback :=
      { strengths := generateStrengths metrics ++ industryFeedback.strengths,
        improvements :=
          generateImprovements metrics ++ industryFeedback.improvements,
        industrySpecific := industryFeedback.industrySpecific,
        summary := "Resume scored for " ++ ia.industryName ++ " industry. " ++
          toString metrics.estimatedPages ++ " page(s) with " ++
          toString metrics.wordCount ++ " words." } }

/-- Model: `req.file`-shaped argument of `extractTextFromFile`. -/
structure UploadedFile where
  path : String
  originalname : String
  mimetype : String
  size : ℕ
deriving DecidableEq, Repr

/-- Failure modes of `extractTextFromFile`: the function's own
`new Error('Unsupported file type')`, or a rejection propagated from the
external parser libraries (`pdf-parse` / `mammoth`). -/
inductive ExtractError
  | unsupportedFileType
  | externalFailure (msg : String)
deriving DecidableEq, Repr

/-- Model: `extractTextFromFile(file)`.  The external effects — `fs.readFileSync`
and the two parser libraries — are taken as parameters; the parsers may
fail with their own errors, which are distinct from the unsupported-type
error. -/
def extractTextFromFile (readFileBytes : String → List ℕ)
    (pdfParse mammothExtractRawText : List ℕ → Except String (List Char))
    (file : UploadedFile) : Except ExtractError (List Char) :=
  let buffer := readFileBytes file.path
  if file.mimetype = "application/pdf" then
    match pdfParse buffer with
    | .ok t => .ok t
    | .error e => .error (.externalFailure e)
  else if file.mimetype = "application/msword" ∨
      file.mimetype =
        "application/vnd.openxmlformats-officedocument.wordprocessingml.document"
  then
    match mammothExtractRawText buffer with
    | .ok t => .ok t
    | .error e => .error (.externalFailure e)
  else .error .unsupportedFileType

/-- The wrapping `analyzeResume` performs in its catch block: any error
from the per-file pipeline (extraction, metrics, scoring) is rethrown as
`Resume analysis failed: ${message}`.  The pipeline body is a parameter
because which step fails is immaterial to the claims about it. -/
def analyzeResumeWrapped {α : Type} (pipeline : α → Except String β)
    (file : α) : Except String β :=
  match pipeline file with
  | .ok a => .ok a
  | .error e => .error ("Resume analysis failed: " ++ e)

/-! ## jobQueue.js — bulk-analyze processor -/

/-- One element of `job.data.files`. -/
structure BulkFileData where
  buffer : List ℕ
  originalname : String
  mimetype : String
  size : ℕ
deriving DecidableEq, Repr

/-- One entry the bulk processor pushes onto `results`. -/
structure BulkEntry (α : Type) where
  filename : String
  success : Bool
  analysis : Option α
  error : Option String
deriving DecidableEq, Repr

/-- The bulk processor's return object. -/
structure BulkResult (α : Type) where
  success : Bool
  results : List (BulkEntry α)
  totalFiles : ℕ
  successCount : ℕ
  jobId : String
deriving DecidableEq, Repr

/-- The `bulk-analyze` processor body of `setupJobProcessors`: iterate the
files in order, catch each per-file `analyzeResume` failure as a
`success: false` entry, and report totals.  `pipeline` abstracts the
per-file work inside `analyzeResume`'s try block; the temp-file
bookkeeping around each call has no bearing on the result object. -/
def processBulkAnalyze {α : Type} (pipeline : BulkFileData → Except String α)
    (jobId : String) (files : List BulkFileData) : BulkResult α :=
  let results := files.map (fun fileData =>
    match analyzeResumeWrapped pipeline fileData with
    | .ok analysis =>
      { filename := fileData.originalname, success := true,
        analysis := some analysis, error := none }
    | .error e =>
      { filename := fileData.originalname, success := false,
        analysis := none, error := some e })
  { success := true,
    results := results,
    totalFiles := files.length,
    successCount := (results.filter (fun r => r.success)).length,
    jobId := jobId }

/-! ## cacheService.js

`generateCacheKey` is `${prefix}:${md5hex(text)}` via Node's
`crypto.createHash('md5').update(text).digest('hex')`; the MD5 digest of
the UTF-8 bytes of the text is embedded in full below (RFC 1321, with
32-bit words as `ℕ` reduced `% 2^32`). -/

def rotl32 (x n : ℕ) : ℕ :=
  ((x <<< n) % 4294967296) ||| (x >>> (32 - n))

def md5K : List ℕ :=
  [0xd76aa478, 0xe8c7b756, 0x242070db, 0xc1bdceee,
   0xf57c0faf, 0x4787c62a, 0xa8304613, 0xfd469501,
   0x698098d8, 0x8b44f7af, 0xffff5bb1, 0x895cd7be,
   0x6b901122, 0xfd987193, 0xa679438e, 0x49b40821,
   0xf61e2562, 0xc040b340, 0x265e5a51, 0xe9b6c7aa,
   0xd62f105d, 0x02441453, 0xd8a1e681, 0xe7d3fbc8,
   0x21e1cde6, 0xc33707d6, 0xf4d50d87, 0x455a14ed,
   0xa9e3e905, 0xfcefa3f8, 0x676f02d9, 0x8d2a4c8a,
   0xfffa3942, 0x8771f681, 0x6d9d6122, 0xfde5380c,
   0xa4beea44, 0x4bdecfa9, 0xf6bb4b60, 0xbebfbc70,
   0x289b7ec6, 0xeaa127fa, 0xd4ef3085, 0x04881d05,
   0xd9d4d039, 0xe6db99e5, 0x1fa27cf8, 0xc4ac5665,
   0xf4292244, 0x432aff97, 0xab9423a7, 0xfc93a039,
   0x655b59c3, 0x8f0ccc92, 0xffeff47d, 0x85845dd1,
   0x6fa87e4f, 0xfe2ce6e0, 0xa3014314, 0x4e0811a1,
   0xf7537e82, 0xbd3af235, 0x2ad7d2bb, 0xeb86d391]

def md5S : List ℕ :=
  [7, 12, 17, 22, 7, 12, 17, 22, 7, 12, 17, 22, 7, 12, 17, 22,
   5, 9, 14, 20, 5, 9, 14, 20, 5, 9, 14, 20, 5, 9, 14, 20,
   4, 11, 16, 23, 4, 11, 16, 23, 4, 11, 16, 23, 4, 11, 16, 23,
   6, 10, 15, 21, 6, 10, 15, 21, 6, 10, 15, 21, 6, 10, 15, 21]

/-- Round function and message index of MD5 round `i`. -/
def md5F (i b c d : ℕ) : ℕ × ℕ :=
  if i < 16 then ((b &&& c) ||| ((b ^^^ 4294967295) &&& d), i)
  else if i < 32 then ((d &&& b) ||| ((d ^^^ 4294967295) &&& c), (5 * i + 1) % 16)
  else if i < 48 then (b ^^^ c ^^^ d, (3 * i + 5) % 16)
  else (c ^^^ (b ||| (d ^^^ 4294967295)), (7 * i) % 16)

def md5Step (words : List ℕ) (st : ℕ × ℕ × ℕ × ℕ) (i : ℕ) : ℕ × ℕ × ℕ × ℕ :=
  let (a, b, c, d) := st
  let fg := md5F i b c d
  let f := (fg.1 + a + md5K.getD i 0 + words.getD fg.2 0) % 4294967296
  (d, (b + rotl32 f (md5S.getD i 0)) % 4294967296, b, c)

def md5Chunk (h : ℕ × ℕ × ℕ × ℕ) (words : List ℕ) : ℕ × ℕ × ℕ × ℕ :=
  let r := (List.range 64).foldl (md5Step words) h
  ((h.1 + r.1) % 4294967296, (h.2.1 + r.2.1) % 4294967296,
   (h.2.2.1 + r.2.2.1) % 4294967296, (h.2.2.2 + r.2.2.2) % 4294967296)

/-- MD5 padding: `0x80`, zeros to 56 mod 64, then the bit length as eight
little-endian bytes. -/
def md5Pad (msg : List ℕ) : List ℕ :=
  let len := msg.length
  let zeros := (56 + 64 - ((len + 1) % 64)) % 64
  let bitLen := (len * 8) % (2 ^ 64)
  msg ++ [0x80] ++ List.replicate zeros 0 ++
    (List.range 8).map (fun i => (bitLen >>> (8 * i)) % 256)

/-- Little-endian 32-bit words of a byte chunk. -/
def toWords : List ℕ → List ℕ
  | b0 :: b1 :: b2 :: b3 :: rest =>
    (b0 + b1 * 256 + b2 * 65536 + b3 * 16777216) :: toWords rest
  | _ => []

def chunks64Aux : ℕ → List ℕ → List (List ℕ)
  | 0, _ => []
  | _ + 1, [] => []
  | fuel + 1, l => l.take 64 :: chunks64Aux fuel (l.drop 64)

def chunks64 (l : List ℕ) : List (List ℕ) := chunks64Aux (l.length + 1) l

def wordBytes (w : ℕ) : List ℕ :=
  [w % 256, (w >>> 8) % 256, (w >>> 16) % 256, (w >>> 24) % 256]

/-- MD5 digest (16 bytes) of a byte message. -/
def md5Bytes (msg : List ℕ) : List ℕ :=
  let final := (chunks64 (md5Pad msg)).foldl
    (fun h chunk => md5Chunk h (toWords chunk))
    (0x67452301, 0xefcdab89, 0x98badcfe, 0x10325476)
  wordBytes final.1 ++ wordBytes final.2.1 ++ wordBytes final.2.2.1 ++
    wordBytes final.2.2.2

def hexDigit (n : ℕ) : Char :=
  if n < 10 then Char.ofNat (48 + n) else Char.ofNat (87 + n)

def byteHex (b : ℕ) : List Char := [hexDigit (b / 16), hexDigit (b % 16)]

/-- Lowercase hex rendering of the digest (`digest('hex')`). -/
def md5Hex (msg : List ℕ) : String :=
  String.mk ((md5Bytes msg).map byteHex).flatten

/-- UTF-8 bytes of one character (`hash.update(text)` uses UTF-8). -/
def utf8Bytes (c : Char) : List ℕ :=
  let n := c.toNat
  if n < 0x80 then [n]
  else if n < 0x800 then
    [0xC0 ||| (n >>> 6), 0x80 ||| (n &&& 0x3F)]
  else if n < 0x10000 then
    [0xE0 ||| (n >>> 12), 0x80 ||| ((n >>> 6) &&& 0x3F), 0x80 ||| (n &&& 0x3F)]
  else
    [0xF0 ||| (n >>> 18), 0x80 ||| ((n >>> 12) &&& 0x3F),
     0x80 ||| ((n >>> 6) &&& 0x3F), 0x80 ||| (n &&& 0x3F)]

def utf8Encode (l : List Char) : List ℕ := (l.map utf8Bytes).flatten

/-- Model: `generateCacheKey(text, prefix)`: `${prefix}:${md5hex(text)}`.  The
source's parameter `prefix` is spelled `pre` here. -/
def generateCacheKey (text : List Char) (pre : String) : String :=
  pre ++ ":" ++ md5Hex (utf8Encode text)

/-- The value object `cacheResumeAnalysis` stores. -/
structure CachedAnalysis (α : Type) where
  analysis : α
  timestamp : ℕ
  version : String
deriving DecidableEq, Repr

/-- The hit object `getCachedResumeAnalysis` returns: the cached analysis
with the `cached` / `cacheTimestamp` indicators attached. -/
structure CachedHit (α : Type) where
  analysis : α
  cached : Bool
  cacheTimestamp : ℕ
deriving DecidableEq, Repr

/-- The local key-value store behind `set`/`get` (the in-memory
`NodeCache`; the optional external mirror degrades to exactly this store
and TTL expiry is outside the claims).  Newest binding first. -/
def CacheStore (α : Type) : Type := List (String × CachedAnalysis α)

def cacheGet {α : Type} (store : CacheStore α) (key : String) :
    Option (CachedAnalysis α) :=
  (store.find? (fun kv => kv.1 = key)).map Prod.snd

def cacheSet {α : Type} (store : CacheStore α) (key : String)
    (v : CachedAnalysis α) : CacheStore α :=
  (key, v) :: store

/-- Model: `cacheResumeAnalysis(resumeText, analysis)` (TTL 7200 not modelled;
`now` is `Date.now()`). -/
def cacheResumeAnalysis {α : Type} (store : CacheStore α)
    (resumeText : List Char) (analysis : α) (now : ℕ) : CacheStore α :=
  let key := generateCacheKey resumeText "analysis"
  cacheSet store key { analysis := analysis, timestamp := now, version := "1.0" }

/-- Model: `getCachedResumeAnalysis(resumeText)`. -/
def getCachedResumeAnalysis {α : Type} (store : CacheStore α)
    (resumeText : List Char) : Option (CachedHit α) :=
  let key := generateCacheKey resumeText "analysis"
  match cacheGet store key with
  | some cached =>
    some { analysis := cached.analysis, cached := true,
           cacheTimestamp := cached.timestamp }
  | none => none

/-! ## Specification-side definition for the industry-detection claim

The refinement claim about `detectIndustry` is checked against the
following transcription of the spec's words. -/

/-- Loop body of `detectIndustry` restricted to the data it actually
consumes: the (id, ratio) pair. -/
def pairStep (best p : String × ℚ) : String × ℚ :=
  if best.2 < p.2 ∧ 1/10 < p.2 then p else best

/-- The non-general industries' match ratios in the fixed iteration order
technology, finance, marketing, healthcare, sales. -/
def industryRatios (text : List Char) : List (String × ℚ) :=
  [("technology", keywordRatio technologyProfile text),
   ("finance", keywordRatio financeProfile text),
   ("marketing", keywordRatio marketingProfile text),
   ("healthcare", keywordRatio healthcareProfile text),
   ("sales", keywordRatio salesProfile text)]

/-- Spec-side selection rule, from the spec's words: return the id of the
profile with the highest ratio provided that ratio strictly exceeds 0.1,
otherwise `general`; on ties the profile occurring first wins — i.e. the
first entry whose ratio exceeds 1/10 and is at least every entry's
ratio. -/
def specSelect (l : List (String × ℚ)) : String :=
  match l.find? (fun p =>
      decide ((1 : ℚ)/10 < p.2 ∧ ∀ q ∈ l, q.2 ≤ p.2)) with
  | some p => p.1
  | none => "general"

/-- Spec-side industry detection. -/
def specDetectIndustry (text : List Char) : String :=
  specSelect (industryRatios text)

/-! ## Concrete instances used by counterexamples and witnesses -/

/-- A text made of 25 `'•'` glyphs plus standard ASCII content that
triggers no other formatting rule. -/
def bulletText : List Char :=
  List.replicate 25 '•' ++ " standard ascii content".toList

/-- A key record whose monthly counter has reached the free-tier monthly
cap, last reset in September 2025. -/
def monthlyCappedKey : KeyData :=
  { key := "k", userId := "u", name := "n", email := none, tier := "free",
    createdAt := "2025-09-15T00:00:00.000Z".toList, lastUsed := none,
    isActive := true, limits := TierLookup.row freeLimits,
    usage := { totalRequests := 100, dailyRequests := 0,
               monthlyRequests := 100,
               lastResetDate := "2025-09-15".toList },
    lastModified := none }

def monthlyCappedStore : KeyStore :=
  updateMap (fun _ => none) "k" monthlyCappedKey

/-- An ISO timestamp one month after `monthlyCappedKey`'s stored reset
date. -/
def octoberNow : List Char := "2025-10-12T08:00:00.000Z".toList

def c2now : List Char := "2025-10-12T00:00:00.000Z".toList
def c2now2 : List Char := "2025-10-13T00:00:00.000Z".toList
def c2ui : UserInfo := { userId := some "u1", name := some "Test User",
                         email := none, tier := some "free" }

/-- C10 witness: the unrecognized tier "gold" concretely. -/
def goldNow : List Char := "2025-01-01T00:00:00.000Z".toList
def goldUi : UserInfo := { userId := some "u1", name := some "G",
                           email := none, tier := some "gold" }
def goldKd : KeyData := mkKeyData "k" "uid" goldUi goldNow
def goldUser : UserRec :=
  { userId := "u1", name := "G", email := none, tier := "gold",
    apiKeys := ["k"], createdAt := goldNow, isActive := true,
    lastModified := none }
def goldKeys : KeyStore := updateMap (fun _ => none) "k" goldKd
def goldUsers : UserStore := updateMap (fun _ => none) "u1" goldUser

/-- C10 counterexample data: a `userInfo` whose tier is the empty
string (falsy in JS, so `userInfo.tier || 'free'` replaces it). -/
def emptyTierUi : UserInfo := { userId := some "u2", name := some "E",
                                email := none, tier := some "" }

/-- Example bulk batch: four files, one of which fails extraction. -/
def bulkExampleFiles : List BulkFileData :=
  [{ buffer := [1], originalname := "a.pdf", mimetype := "application/pdf",
     size := 1 },
   { buffer := [2], originalname := "b.pdf", mimetype := "application/pdf",
     size := 1 },
   { buffer := [3], originalname := "bad.txt", mimetype := "text/plain",
     size := 1 },
   { buffer := [4], originalname := "c.pdf", mimetype := "application/pdf",
     size := 1 }]

/-- Example per-file pipeline: extraction fails on the `text/plain`
file. -/
def bulkExamplePipeline (f : BulkFileData) : Except String ℕ :=
  if f.mimetype = "text/plain" then Except.error "Unsupported file type"
  else Except.ok 1

/-! ## Helper lemmas -/

theorem find?_congr_mem {α : Type} (l : List α) (p q : α → Bool)
    (h : ∀ x ∈ l, p x = q x) : l.find? p = l.find? q := by
  induction l with
  | nil => rfl
  | cons a t ih =>
    have ha := h a (by simp)
    simp only [List.find?]
    rw [ha]
    cases q a <;> simp
    exact ih (fun x hx => h x (by simp [hx]))

theorem jsRound_lower {q : ℚ} (h : 1 ≤ q) : 1 ≤ jsRound q := by
  unfold jsRound
  rw [Int.le_floor]
  push_cast
  linarith

theorem jsRound_upper {q : ℚ} (h : q ≤ 10) : jsRound q ≤ 10 := by
  have h1 : jsRound q < 11 := by
    unfold jsRound
    rw [Int.floor_lt]
    push_cast
    linarith
  omega

theorem jsRound_nonneg {q : ℚ} (h : 0 ≤ q) : (0 : ℚ) ≤ (jsRound q : ℚ) := by
  have : (0 : ℤ) ≤ jsRound q := by
    unfold jsRound
    rw [Int.le_floor]
    push_cast
    linarith
  exact_mod_cast this

/-! ## Claim theorems -/

/-- C9: `extractTextFromFile` throws the unsupported-file-type error if
and only if the file's declared MIME type is none of `application/pdf`,
`application/msword`, or the DOCX MIME type; for those three it proceeds
to text extraction (succeeding or propagating the parser's own error,
never the unsupported one). -/
theorem extractTextFromFile_unsupported_iff
    (readFileBytes : String → List ℕ)
    (pdfParse mammothExtractRawText : List ℕ → Except String (List Char))
    (file : UploadedFile) :
    extractTextFromFile readFileBytes pdfParse mammothExtractRawText file =
      Except.error ExtractError.unsupportedFileType ↔
    file.mimetype ∉ ["application/pdf", "application/msword",
      "application/vnd.openxmlformats-officedocument.wordprocessingml.document"] := by
  unfold extractTextFromFile
  by_cases h1 : file.mimetype = "application/pdf"
  · rw [if_pos h1]
    cases hp : pdfParse (readFileBytes file.path) <;> simp [h1]
  · rw [if_neg h1]
    by_cases h2 : file.mimetype = "application/msword" ∨ file.mimetype =
        "application/vnd.openxmlformats-officedocument.wordprocessingml.document"
    · rw [if_pos h2]
      cases hm : mammothExtractRawText (readFileBytes file.path) <;>
        (rcases h2 with h2 | h2 <;> simp [h2])
    · rw [if_neg h2]
      push_neg at h2
      simp [h1, h2.1, h2.2]

/-- C8: the cache key is a deterministic function of the extracted text
alone — `generateCacheKey` is literally `prefix ++ ":" ++ md5` of the
text's UTF-8 bytes, with no other input — and storing an analysis for a
text then looking the same text up (whatever file either came from) hits
the stored entry. -/
theorem generateCacheKey_text_only_and_roundtrip {α : Type}
    (store : CacheStore α) (t : List Char) (a : α) (now : ℕ) (pre : String) :
    generateCacheKey t pre = pre ++ ":" ++ md5Hex (utf8Encode t) ∧
    getCachedResumeAnalysis (cacheResumeAnalysis store t a now) t =
      some { analysis := a, cached := true, cacheTimestamp := now } := by
  refine ⟨rfl, ?_⟩
  simp [getCachedResumeAnalysis, cacheResumeAnalysis, cacheGet, cacheSet,
    List.find?]

/-- C1 (failing-input evaluation): a key whose `monthlyRequests` sits at
the monthly cap with a `lastResetDate` in the previous month still fails
`validateAPIKey` with the monthly-limit error a month later, and its
monthly counter is not reset — because the daily reset overwrites
`lastResetDate` with today before the month comparison reads it, the
monthly-reset branch can never fire. -/
theorem validateAPIKey_monthly_rollover_does_not_reset :
    (validateAPIKey octoberNow monthlyCappedStore "k").1 =
      { valid := false, error := some "Monthly request limit exceeded" } ∧
    ((validateAPIKey octoberNow monthlyCappedStore "k").2 "k").map
      (fun kd => kd.usage.monthlyRequests) = some 100 ∧
    ((validateAPIKey octoberNow monthlyCappedStore "k").2 "k").map
      (fun kd => kd.usage.lastResetDate) = some ("2025-10-12".toList) := by
  refine ⟨?_, ?_, ?_⟩ <;> rfl

/-- C6: the overall ATS score is the rounded weighted sum of the five
sub-check scores with weights formatting 0.25, keywords 0.25, structure
0.25, readability 0.20, fileFormat 0.05, and `isATSFriendly` holds
exactly when that overall score is at least 7. -/
theorem checkATSCompatibility_weighted_sum_threshold (text : List Char)
    (metrics : BasicMetrics) :
    (checkATSCompatibility text metrics).score =
      (jsRound ((checkFormatting text).score * (25/100) +
        (checkKeywords text).score * (25/100) +
        (checkStructure text metrics).score * (25/100) +
        (checkReadability text metrics).score * (20/100) +
        checkFileFormat.score * (5/100)) : ℚ) ∧
    ((checkATSCompatibility text metrics).isATSFriendly = true ↔
      (7 : ℚ) ≤ (checkATSCompatibility text metrics).score) := by
  refine ⟨rfl, ?_⟩
  simp [checkATSCompatibility]

/-- C10 counterexample: the claim fails on two concrete unrecognized
tier strings.  `"toString"` is outside {free, premium, enterprise}, yet
`limits["toString"]` hits the inherited `Object.prototype.toString` — a
truthy value — so `getTierLimits` returns that member, not the free-tier
limits.  And `""` is outside the set too, yet `createAPIKey` stores
`"free"` (JS `userInfo.tier || 'free'` replaces the falsy empty string),
not the string verbatim. -/
theorem unrecognizedTier_free_limits_counterexample :
    ("toString" ∉ ["free", "premium", "enterprise"]) ∧
    getTierLimits "toString" = TierLookup.protoMember "toString" ∧
    getTierLimits "toString" ≠ TierLookup.row freeLimits ∧
    ("" ∉ ["free", "premium", "enterprise"]) ∧
    (mkKeyData "k" "uid" emptyTierUi goldNow).tier = "free" ∧
    (mkKeyData "k" "uid" emptyTierUi goldNow).tier ≠ "" := by decide

/-- C10 (amended): for every tier string outside
{free, premium, enterprise} that also names no `Object.prototype`
property, `getTierLimits` returns the free-tier limit row;
`createAPIKey` with such a tier (when additionally non-empty, since the
JS `userInfo.tier || 'free'` replaces the falsy empty string) produces a
record whose `tier` field stores the string verbatim while its `limits`
field holds the free-tier row, and `updateTier` with such a tier stores
it verbatim with the free-tier row. -/
theorem unrecognizedTier_free_limits (tier : String)
    (hmem : tier ∉ ["free", "premium", "enterprise"])
    (hproto : tier ∉ objectProtoKeys) :
    getTierLimits tier = TierLookup.row freeLimits ∧
    (∀ (apiKey defaultUserId : String) (ui : UserInfo) (now : List Char),
      ui.tier = some tier → tier ≠ "" →
      (mkKeyData apiKey defaultUserId ui now).tier = tier ∧
      (mkKeyData apiKey defaultUserId ui now).limits =
        TierLookup.row freeLimits) ∧
    (∀ (now : List Char) (keys : KeyStore) (users : UserStore)
       (apiKey : String) (kd : KeyData) (u : UserRec),
      keys apiKey = some kd → users kd.userId = some u →
      (updateTier now keys users apiKey tier).1 = true ∧
      (updateTier now keys users apiKey tier).2.1 apiKey =
        some { kd with
               tier := tier
               limits := TierLookup.row freeLimits
               lastModified := some now }) := by
  have h1 : tier ≠ "free" := fun h => hmem (by simp [h])
  have h2 : tier ≠ "premium" := fun h => hmem (by simp [h])
  have h3 : tier ≠ "enterprise" := fun h => hmem (by simp [h])
  have hfree : getTierLimits tier = TierLookup.row freeLimits := by
    simp [getTierLimits, h1, h2, h3, hproto]
  refine ⟨hfree, ?_, ?_⟩
  · intro apiKey defaultUserId ui now htier hne
    constructor
    · simp [mkKeyData, jsStringOr, htier, hne]
    · simp [mkKeyData, jsStringOr, htier, hne, hfree]
  · intro now keys users apiKey kd u hkd hu
    simp only [updateTier, hkd, hu]
    exact ⟨trivial, by simp [updateMap, hfree]⟩

/-- C10 witness: the amended statement at the concrete unrecognized tier
"gold", which names no `Object.prototype` property. -/
theorem unrecognizedTier_free_limits_witness :
    getTierLimits "gold" = TierLookup.row freeLimits ∧
    (mkKeyData "k" "uid" goldUi goldNow).tier = "gold" ∧
    (mkKeyData "k" "uid" goldUi goldNow).limits =
      TierLookup.row freeLimits ∧
    (updateTier goldNow goldKeys goldUsers "k" "gold").1 = true := by
  have h := unrecognizedTier_free_limits "gold" (by decide) (by decide)
  have hmk := h.2.1 "k" "uid" goldUi goldNow rfl (by decide)
  have hup := h.2.2 goldNow goldKeys goldUsers "k" goldKd goldUser rfl rfl
  exact ⟨h.1, hmk.1, hmk.2, hup.1⟩

/-- C7: a per-file analysis failure does not abort a bulk job: the result
reports `totalFiles = n`, one entry per file in order, `successCount` is
the number of files whose per-file analysis succeeded, and every failed
entry carries `success = false` with a non-empty error message; e.g. the
concrete 4-file batch with one extraction failure yields 3 successes out
of 4. -/
theorem processBulkAnalyze_per_file_failures {α : Type}
    (pipeline : BulkFileData → Except String α) (jobId : String)
    (files : List BulkFileData) :
    (processBulkAnalyze pipeline jobId files).totalFiles = files.length ∧
    (processBulkAnalyze pipeline jobId files).results.length = files.length ∧
    (processBulkAnalyze pipeline jobId files).successCount =
      (files.filter (fun f => (analyzeResumeWrapped pipeline f).isOk)).length ∧
    (∀ i : ℕ, ((processBulkAnalyze pipeline jobId files).results[i]?).map
        (fun e => e.filename) = (files[i]?).map (fun f => f.originalname)) ∧
    (∀ e ∈ (processBulkAnalyze pipeline jobId files).results,
      e.success = false → ∃ m, e.error = some m ∧ m ≠ "") ∧
    ((processBulkAnalyze bulkExamplePipeline "job1" bulkExampleFiles).successCount = 3 ∧
     (processBulkAnalyze bulkExamplePipeline "job1" bulkExampleFiles).totalFiles = 4) := by
  refine ⟨rfl, by simp [processBulkAnalyze], ?_, ?_, ?_, by decide, by decide⟩
  · simp only [processBulkAnalyze, List.filter_map, List.length_map]
    congr 1
    apply List.filter_congr
    intro f _
    cases h : analyzeResumeWrapped pipeline f <;>
      simp [Function.comp, h, Except.isOk, Except.toBool]
  · intro i
    simp only [processBulkAnalyze, List.getElem?_map]
    cases hf : files[i]? with
    | none => simp
    | some f =>
      cases h : analyzeResumeWrapped pipeline f <;> simp [h]
  · intro e he hfalse
    simp only [processBulkAnalyze, List.mem_map] at he
    obtain ⟨f, _, rfl⟩ := he
    cases hp : pipeline f with
    | ok a => simp [analyzeResumeWrapped, hp] at hfalse
    | error e0 =>
      refine ⟨"Resume analysis failed: " ++ e0, by simp [analyzeResumeWrapped, hp], ?_⟩
      intro hcontra
      have hlen := congrArg String.length hcontra
      have h24 : ("Resume analysis failed: ").length = 24 := rfl
      rw [String.length_append, h24] at hlen
      simp at hlen

/-- Helper for C3: when every non-`'•'` character is ASCII, the bullet
glyph class of `checkFormatting` counts exactly the `'•'`s. -/
theorem bulletSymbolCount_eq_count (text : List Char)
    (hascii : ∀ c ∈ text, c ≠ '•' → c.toNat ≤ 127) :
    bulletSymbolCount text = text.count '•' := by
  have hcnt : text.count '•' = (text.filter (fun c => c == '•')).length := by
    rw [List.count, List.countP_eq_length_filter]
  rw [bulletSymbolCount, hcnt]
  congr 1
  apply List.filter_congr
  intro c hc
  by_cases h : c = '•'
  · subst h; decide
  · have hle := hascii c hc h
    have hb : ∀ d : Char, 127 < d.toNat → c ≠ d := by
      intro d hd he
      rw [he] at hle
      omega
    simp [h, hb '▪' (by decide), hb '▫' (by decide), hb '‣' (by decide),
      hb '⁃' (by decide), hb '◦' (by decide)]

/-- Helper for C3: a text containing a `'•'` trips the non-ASCII rule,
since `'•'` is U+2022. -/
theorem hasNonAscii_of_count_bullet (text : List Char)
    (h : 0 < text.count '•') : hasNonAscii text = true := by
  have hmem : '•' ∈ text := List.count_pos_iff.mp h
  rw [hasNonAscii, List.any_eq_true]
  exact ⟨'•', hmem, by decide⟩

/-- C3 counterexample: a text of exactly 25 `'•'` glyphs plus standard
ASCII content that triggers neither the table rule nor the header/footer
rule gets `checkFormatting` score 8, not the claimed 9 — the bullet glyph
itself also trips the non-ASCII deduction. -/
theorem checkFormatting_25_bullets_counterexample :
    bulletText.count '•' = 25 ∧
    (∀ c ∈ bulletText, c ≠ '•' → c.toNat ≤ 127) ∧
    hasTableFormatting bulletText = false ∧
    hasHeaderFooterIndicator bulletText = false ∧
    (checkFormatting bulletText).score ≠ 9 ∧
    (checkFormatting bulletText).score = 8 := by
  have h8 : (checkFormatting bulletText).score = 8 := by
    simp [checkFormatting,
      show hasNonAscii bulletText = true from by decide,
      show hasTableFormatting bulletText = false from by decide,
      show bulletSymbolCount bulletText = 25 from by decide,
      show hasHeaderFooterIndicator bulletText = false from by decide]
    norm_num
  refine ⟨by decide, by decide, by decide, by decide, ?_, h8⟩
  rw [h8]
  norm_num

/-- C3 (amended): for any text with exactly 25 `'•'` occurrences, all
other characters ASCII, and no other formatting rule triggered,
`checkFormatting` deducts two points from the baseline of 10 — one for
the excessive-bullet rule and one for the non-ASCII rule that the bullet
glyph itself trips — returning score 8. -/
theorem checkFormatting_25_bullets_amended (text : List Char)
    (hcount : text.count '•' = 25)
    (hascii : ∀ c ∈ text, c ≠ '•' → c.toNat ≤ 127)
    (htable : hasTableFormatting text = false)
    (hheader : hasHeaderFooterIndicator text = false) :
    (checkFormatting text).score = 8 := by
  have hb : bulletSymbolCount text = 25 :=
    (bulletSymbolCount_eq_count text hascii).trans hcount
  have hna : hasNonAscii text = true :=
    hasNonAscii_of_count_bullet text (by omega)
  simp [checkFormatting, hna, htable, hheader, hb]
  norm_num

/-- C3 witness: the amended statement applied to the concrete text. -/
theorem checkFormatting_25_bullets_amended_witness :
    (checkFormatting bulletText).score = 8 :=
  checkFormatting_25_bullets_amended bulletText (by decide) (by decide)
    (by decide) (by decide)

/-! ### C2 helper lemmas: evaluating the quota flow -/

theorem runSteps_succ (now : List Char) (apiKey : String) (i : ℕ)
    (st : KeyStore) :
    runSteps now apiKey (i + 1) st =
      stepValidateRecord now (runSteps now apiKey i st) apiKey := by
  induction i generalizing st with
  | zero => rfl
  | succ n ih =>
    have hstep : runSteps now apiKey (n + 2) st =
        runSteps now apiKey (n + 1) (stepValidateRecord now st apiKey) := rfl
    rw [hstep, ih]
    rfl

/-- Evaluation of `validateAPIKey` on a same-day, under-quota key whose
stored limits are a row. -/
theorem validateAPIKey_ok (now : List Char) (S : KeyStore) (apiKey : String)
    (kd : KeyData) (lim : TierLimits) (hS : S apiKey = some kd)
    (hact : kd.isActive = true)
    (hdate : kd.usage.lastResetDate = jsDateOnly now)
    (h7 : take7 (jsDateOnly now) = take7 now)
    (hrow : kd.limits = TierLookup.row lim)
    (hd : kd.usage.dailyRequests < lim.dailyRequests)
    (hm : kd.usage.monthlyRequests < lim.monthlyRequests) :
    validateAPIKey now S apiKey =
      ({ valid := true, error := none }, updateMap S apiKey kd) := by
  have hmt : take7 now = take7 kd.usage.lastResetDate := by rw [hdate, h7]
  simp only [validateAPIKey, hS]
  split_ifs <;>
    simp_all [jsGeUndef, TierLookup.dailyRequests?,
      TierLookup.monthlyRequests?] <;>
    omega

/-- Evaluation of `validateAPIKey` on a same-day key at the daily cap. -/
theorem validateAPIKey_daily_exceeded (now : List Char) (S : KeyStore)
    (apiKey : String) (kd : KeyData) (lim : TierLimits)
    (hS : S apiKey = some kd) (hact : kd.isActive = true)
    (hdate : kd.usage.lastResetDate = jsDateOnly now)
    (hrow : kd.limits = TierLookup.row lim)
    (hd : lim.dailyRequests ≤ kd.usage.dailyRequests) :
    (validateAPIKey now S apiKey).1 =
      { valid := false, error := some "Daily request limit exceeded" } := by
  simp only [validateAPIKey, hS]
  split_ifs <;>
    simp_all [jsGeUndef, TierLookup.dailyRequests?,
      TierLookup.monthlyRequests?] <;>
    omega

/-- Evaluation of `validateAPIKey` on a key whose stored reset date is a
different day: the daily counter is reset to 0 and validation succeeds
(whatever the month comparison then does). -/
theorem validateAPIKey_day_rollover (now2 : List Char) (S : KeyStore)
    (apiKey : String) (kd : KeyData) (lim : TierLimits)
    (hS : S apiKey = some kd) (hact : kd.isActive = true)
    (hne : kd.usage.lastResetDate ≠ jsDateOnly now2)
    (hrow : kd.limits = TierLookup.row lim)
    (hd : 0 < lim.dailyRequests)
    (hm : kd.usage.monthlyRequests < lim.monthlyRequests) :
    (validateAPIKey now2 S apiKey).1 = { valid := true, error := none } ∧
    ((validateAPIKey now2 S apiKey).2 apiKey).map
      (fun k => k.usage.dailyRequests) = some 0 := by
  simp only [validateAPIKey, hS]
  split_ifs <;>
    simp_all [updateMap, jsGeUndef, TierLookup.dailyRequests?,
      TierLookup.monthlyRequests?] <;>
    omega

/-- One `validate`-then-`recordUsage` round on a same-day, under-quota
key bumps the three counters. -/
theorem stepValidateRecord_apply (now : List Char) (S : KeyStore)
    (apiKey : String) (kd : KeyData) (lim : TierLimits)
    (hS : S apiKey = some kd) (hact : kd.isActive = true)
    (hdate : kd.usage.lastResetDate = jsDateOnly now)
    (h7 : take7 (jsDateOnly now) = take7 now)
    (hrow : kd.limits = TierLookup.row lim)
    (hd : kd.usage.dailyRequests < lim.dailyRequests)
    (hm : kd.usage.monthlyRequests < lim.monthlyRequests) :
    stepValidateRecord now S apiKey apiKey =
      some { kd with
             usage := { kd.usage with
                        totalRequests := kd.usage.totalRequests + 1
                        dailyRequests := kd.usage.dailyRequests + 1
                        monthlyRequests := kd.usage.monthlyRequests + 1 }
             lastUsed := some now } := by
  unfold stepValidateRecord
  rw [validateAPIKey_ok now S apiKey kd lim hS hact hdate h7 hrow hd hm]
  simp [recordUsage, updateMap]

/-- The stored free-tier limit row of a key created with tier `free`. -/
theorem mkKeyData_free_limits (apiKey defaultUserId : String) (ui : UserInfo)
    (now : List Char) (hui : ui.tier = some "free") :
    (mkKeyData apiKey defaultUserId ui now).limits =
      TierLookup.row freeLimits := by
  simp [mkKeyData, jsStringOr, hui, getTierLimits]

/-- State of the key after `i ≤ 10` validate/record rounds on creation
day: all three counters equal `i`. -/
theorem c2_state (now : List Char) (apiKey defaultUserId : String)
    (ui : UserInfo) (hui : ui.tier = some "free")
    (h7 : take7 (jsDateOnly now) = take7 now) :
    ∀ i, i ≤ 10 →
      runSteps now apiKey i
        (updateMap (fun _ => none) apiKey
          (mkKeyData apiKey defaultUserId ui now)) apiKey =
      some { mkKeyData apiKey defaultUserId ui now with
             usage := { totalRequests := i
                        dailyRequests := i
                        monthlyRequests := i
                        lastResetDate := jsDateOnly now }
             lastUsed := if i = 0 then none else some now } := by
  intro i
  induction i with
  | zero =>
    intro _
    simp [runSteps, updateMap, mkKeyData]
  | succ n ih =>
    intro hn1
    have hn : n ≤ 10 := by omega
    rw [runSteps_succ]
    rw [stepValidateRecord_apply now _ apiKey _ freeLimits (ih hn) rfl rfl h7
      (by simp [mkKeyData, jsStringOr, hui, getTierLimits])
      (by simp [freeLimits]; omega)
      (by simp [freeLimits]; omega)]
    simp

/-- C2: a key just created with tier `free` (daily cap 10) validates and
records successfully exactly 10 times on its creation day, the 11th
`validateAPIKey` that day fails with the daily-limit error, and on a
later date the daily counter is reset to 0 and validation succeeds
again. -/
theorem freeTier_daily_quota (now now2 : List Char)
    (apiKey defaultUserId : String) (ui : UserInfo)
    (hui : ui.tier = some "free")
    (h7 : take7 (jsDateOnly now) = take7 now)
    (hne : jsDateOnly now2 ≠ jsDateOnly now) :
    (∀ i, i ≤ 9 →
      (validateAPIKey now
        (runSteps now apiKey i
          (updateMap (fun _ => none) apiKey
            (mkKeyData apiKey defaultUserId ui now))) apiKey).1 =
        { valid := true, error := none }) ∧
    (validateAPIKey now
      (runSteps now apiKey 10
        (updateMap (fun _ => none) apiKey
          (mkKeyData apiKey defaultUserId ui now))) apiKey).1 =
      { valid := false, error := some "Daily request limit exceeded" } ∧
    (validateAPIKey now2
      (runSteps now apiKey 10
        (updateMap (fun _ => none) apiKey
          (mkKeyData apiKey defaultUserId ui now))) apiKey).1 =
      { valid := true, error := none } ∧
    ((validateAPIKey now2
      (runSteps now apiKey 10
        (updateMap (fun _ => none) apiKey
          (mkKeyData apiKey defaultUserId ui now))) apiKey).2 apiKey).map
      (fun kd => kd.usage.dailyRequests) = some 0 := by
  refine ⟨?_, ?_, ?_, ?_⟩
  · intro i hi
    have hst := c2_state now apiKey defaultUserId ui hui h7 i (by omega)
    rw [validateAPIKey_ok now _ apiKey _ freeLimits hst rfl rfl h7
      (by simp [mkKeyData, jsStringOr, hui, getTierLimits])
      (by simp [freeLimits]; omega)
      (by simp [freeLimits]; omega)]
  · have hst := c2_state now apiKey defaultUserId ui hui h7 10 (by omega)
    exact validateAPIKey_daily_exceeded now _ apiKey _ freeLimits hst rfl rfl
      (by simp [mkKeyData, jsStringOr, hui, getTierLimits])
      (by simp [freeLimits])
  · have hst := c2_state now apiKey defaultUserId ui hui h7 10 (by omega)
    exact (validateAPIKey_day_rollover now2 _ apiKey _ freeLimits hst rfl
      (fun h => hne h.symm)
      (by simp [mkKeyData, jsStringOr, hui, getTierLimits])
      (by simp [freeLimits])
      (by simp [freeLimits])).1
  · have hst := c2_state now apiKey defaultUserId ui hui h7 10 (by omega)
    exact (validateAPIKey_day_rollover now2 _ apiKey _ freeLimits hst rfl
      (fun h => hne h.symm)
      (by simp [mkKeyData, jsStringOr, hui, getTierLimits])
      (by simp [freeLimits])
      (by simp [freeLimits])).2

/-- C2 witness: the quota flow at concrete October dates. -/
theorem freeTier_daily_quota_witness :
    (∀ i, i ≤ 9 →
      (validateAPIKey c2now
        (runSteps c2now "rk" i
          (updateMap (fun _ => none) "rk"
            (mkKeyData "rk" "uid" c2ui c2now))) "rk").1 =
        { valid := true, error := none }) ∧
    (validateAPIKey c2now
      (runSteps c2now "rk" 10
        (updateMap (fun _ => none) "rk"
          (mkKeyData "rk" "uid" c2ui c2now))) "rk").1 =
      { valid := false, error := some "Daily request limit exceeded" } ∧
    (validateAPIKey c2now2
      (runSteps c2now "rk" 10
        (updateMap (fun _ => none) "rk"
          (mkKeyData "rk" "uid" c2ui c2now))) "rk").1 =
      { valid := true, error := none } ∧
    ((validateAPIKey c2now2
      (runSteps c2now "rk" 10
        (updateMap (fun _ => none) "rk"
          (mkKeyData "rk" "uid" c2ui c2now))) "rk").2 "rk").map
      (fun kd => kd.usage.dailyRequests) = some 0 :=
  freeTier_daily_quota c2now c2now2 "rk" "uid" c2ui rfl (by decide) (by decide)

/-! ### C5 helper: characterizing the best-match fold -/

/-- Every non-empty score list has an entry whose score bounds them all. -/
theorem exists_max_snd (t : List (String × ℚ)) (h : t ≠ []) :
    ∃ p ∈ t, ∀ q ∈ t, q.2 ≤ p.2 := by
  induction t with
  | nil => exact absurd rfl h
  | cons a t ih =>
    rcases t.eq_nil_or_concat with rfl | -
    · exact ⟨a, by simp⟩
    by_cases ht : t = []
    · subst ht
      exact ⟨a, by simp⟩
    · obtain ⟨pm, hpm, hmax⟩ := ih ht
      by_cases hle : a.2 ≤ pm.2
      · refine ⟨pm, List.mem_cons_of_mem a hpm, ?_⟩
        intro q hq
        rcases List.mem_cons.mp hq with hq | hq
        · rw [hq]; exact hle
        · exact hmax q hq
      · refine ⟨a, List.mem_cons_self a t, ?_⟩
        intro q hq
        rcases List.mem_cons.mp hq with hq | hq
        · rw [hq]
        · exact le_trans (hmax q hq) (le_of_not_le hle)

/-- The best-match fold of `detectIndustry` returns the first entry that
beats the accumulator and the 0.1 threshold and is at least every entry's
score; otherwise the accumulator's id. -/
theorem foldPairs (l : List (String × ℚ)) : ∀ b : String × ℚ,
    (l.foldl pairStep b).1 =
      (match l.find? (fun p =>
          decide (b.2 < p.2 ∧ (1 : ℚ)/10 < p.2 ∧ ∀ q ∈ l, q.2 ≤ p.2)) with
       | some p => p.1
       | none => b.1) := by
  induction l with
  | nil => intro b; rfl
  | cons h t ih =>
    intro b
    rw [List.foldl_cons]
    by_cases hc : b.2 < h.2 ∧ (1 : ℚ)/10 < h.2
    · rw [show pairStep b h = h from by rw [pairStep, if_pos hc]]
      by_cases hall : ∀ q ∈ t, q.2 ≤ h.2
      · have hP : b.2 < h.2 ∧ (1 : ℚ)/10 < h.2 ∧ ∀ q ∈ h :: t, q.2 ≤ h.2 := by
          refine ⟨hc.1, hc.2, ?_⟩
          intro q hq
          rcases List.mem_cons.mp hq with hq | hq
          · rw [hq]
          · exact hall q hq
        have hPa : (fun p : String × ℚ => decide (b.2 < p.2 ∧
            (1 : ℚ)/10 < p.2 ∧ ∀ q ∈ h :: t, q.2 ≤ p.2)) h = true := by
          simp only [decide_eq_true_eq]
          exact hP
        rw [@List.find?_cons_of_pos _ (fun p : String × ℚ =>
          decide (b.2 < p.2 ∧ (1 : ℚ)/10 < p.2 ∧ ∀ q ∈ h :: t, q.2 ≤ p.2))
          h t hPa]
        rw [ih h]
        have hnone : t.find? (fun p =>
            decide (h.2 < p.2 ∧ (1 : ℚ)/10 < p.2 ∧ ∀ q ∈ t, q.2 ≤ p.2)) =
            none := by
          rw [List.find?_eq_none]
          intro p hp
          simp only [decide_eq_true_eq, not_and]
          intro hlt
          exact absurd hlt (not_lt.mpr (hall p hp))
        rw [hnone]
      · push_neg at hall
        obtain ⟨q0, hq0, hq0lt⟩ := hall
        have hPneg : ¬(b.2 < h.2 ∧ (1 : ℚ)/10 < h.2 ∧ ∀ q ∈ h :: t, q.2 ≤ h.2) := by
          rintro ⟨-, -, hall2⟩
          exact absurd (hall2 q0 (List.mem_cons_of_mem h hq0)) (not_le.mpr hq0lt)
        have hPa : ¬((fun p : String × ℚ => decide (b.2 < p.2 ∧
            (1 : ℚ)/10 < p.2 ∧ ∀ q ∈ h :: t, q.2 ≤ p.2)) h = true) := by
          simp only [decide_eq_true_eq]
          exact hPneg
        rw [@List.find?_cons_of_neg _ (fun p : String × ℚ =>
          decide (b.2 < p.2 ∧ (1 : ℚ)/10 < p.2 ∧ ∀ q ∈ h :: t, q.2 ≤ p.2))
          h t hPa]
        rw [ih h]
        have hcongr : t.find? (fun p =>
            decide (h.2 < p.2 ∧ (1 : ℚ)/10 < p.2 ∧ ∀ q ∈ t, q.2 ≤ p.2)) =
          t.find? (fun p =>
            decide (b.2 < p.2 ∧ (1 : ℚ)/10 < p.2 ∧ ∀ q ∈ h :: t, q.2 ≤ p.2)) := by
          apply find?_congr_mem
          intro p hp
          apply decide_eq_decide.mpr
          constructor
          · rintro ⟨h1, h2, h3⟩
            refine ⟨lt_trans hc.1 h1, h2, ?_⟩
            intro q hq
            rcases List.mem_cons.mp hq with hq | hq
            · rw [hq]; exact le_of_lt h1
            · exact h3 q hq
          · rintro ⟨h1, h2, h3⟩
            have hq0p : q0.2 ≤ p.2 := h3 q0 (List.mem_cons_of_mem h hq0)
            refine ⟨lt_of_lt_of_le hq0lt hq0p, h2, ?_⟩
            intro q hq
            exact h3 q (List.mem_cons_of_mem h hq)
        rw [hcongr]
        cases hfind : t.find? (fun p : String × ℚ =>
            decide (b.2 < p.2 ∧ (1 : ℚ)/10 < p.2 ∧
              ∀ q ∈ h :: t, q.2 ≤ p.2)) with
        | some p => rfl
        | none =>
          exfalso
          obtain ⟨pm, hpm, hmax⟩ := exists_max_snd t (List.ne_nil_of_mem hq0)
          have hq0pm : q0.2 ≤ pm.2 := hmax q0 hq0
          have hpred : b.2 < pm.2 ∧ (1 : ℚ)/10 < pm.2 ∧
              ∀ q ∈ h :: t, q.2 ≤ pm.2 := by
            refine ⟨by linarith [hc.1], by linarith [hc.2], ?_⟩
            intro q hq
            rcases List.mem_cons.mp hq with hq | hq
            · rw [hq]; linarith
            · exact hmax q hq
          have hnp := List.find?_eq_none.mp hfind pm hpm
          simp only [decide_eq_true_eq] at hnp
          exact hnp hpred
    · rw [show pairStep b h = b from by rw [pairStep, if_neg hc]]
      have hPneg : ¬(b.2 < h.2 ∧ (1 : ℚ)/10 < h.2 ∧ ∀ q ∈ h :: t, q.2 ≤ h.2) := by
        rintro ⟨h1, h2, -⟩
        exact hc ⟨h1, h2⟩
      have hPa : ¬((fun p : String × ℚ => decide (b.2 < p.2 ∧
          (1 : ℚ)/10 < p.2 ∧ ∀ q ∈ h :: t, q.2 ≤ p.2)) h = true) := by
        simp only [decide_eq_true_eq]
        exact hPneg
      rw [@List.find?_cons_of_neg _ (fun p : String × ℚ =>
        decide (b.2 < p.2 ∧ (1 : ℚ)/10 < p.2 ∧ ∀ q ∈ h :: t, q.2 ≤ p.2))
        h t hPa]
      rw [ih b]
      have hcongr : t.find? (fun p =>
          decide (b.2 < p.2 ∧ (1 : ℚ)/10 < p.2 ∧ ∀ q ∈ t, q.2 ≤ p.2)) =
        t.find? (fun p =>
          decide (b.2 < p.2 ∧ (1 : ℚ)/10 < p.2 ∧ ∀ q ∈ h :: t, q.2 ≤ p.2)) := by
        apply find?_congr_mem
        intro p hp
        apply decide_eq_decide.mpr
        constructor
        · rintro ⟨h1, h2, h3⟩
          refine ⟨h1, h2, ?_⟩
          intro q hq
          rcases List.mem_cons.mp hq with hq | hq
          · rw [hq]
            rcases not_and_or.mp hc with hc1 | hc1
            · exact le_trans (not_lt.mp hc1) (le_of_lt h1)
            · exact le_trans (not_lt.mp hc1) (le_of_lt h2)
          · exact h3 q hq
        · rintro ⟨h1, h2, h3⟩
          exact ⟨h1, h2, fun q hq => h3 q (List.mem_cons_of_mem h hq)⟩
      rw [hcongr]

/-- The fold of `detectIndustry` over the profile table, seen as a fold
over the (id, ratio) pairs of the five non-general profiles in the fixed
iteration order. -/
theorem detectIndustry_as_pairs (text : List Char) :
    detectIndustry text =
      ((industryRatios text).foldl pairStep ("general", 0)).1 := by
  rfl

/-- C5: `detectIndustry` returns the id of the non-general profile with
the highest keyword-match ratio provided that ratio strictly exceeds 0.1,
otherwise `general`; on equal ratios the profile occurring first in the
fixed iteration order technology, finance, marketing, healthcare, sales
wins. -/
theorem detectIndustry_eq_spec (text : List Char) :
    detectIndustry text = specDetectIndustry text := by
  rw [detectIndustry_as_pairs, foldPairs (industryRatios text) ("general", 0)]
  unfold specDetectIndustry specSelect
  have hcongr : (industryRatios text).find? (fun p =>
      decide (((("general", (0 : ℚ))) : String × ℚ).2 < p.2 ∧
        (1 : ℚ)/10 < p.2 ∧ ∀ q ∈ industryRatios text, q.2 ≤ p.2)) =
    (industryRatios text).find? (fun p =>
      decide ((1 : ℚ)/10 < p.2 ∧ ∀ q ∈ industryRatios text, q.2 ≤ p.2)) := by
    apply find?_congr_mem
    intro p hp
    apply decide_eq_decide.mpr
    constructor
    · rintro ⟨-, h2, h3⟩
      exact ⟨h2, h3⟩
    · rintro ⟨h2, h3⟩
      exact ⟨lt_trans (by norm_num) h2, h2, h3⟩
  rw [hcongr]

/-! ### C4 helpers: bounds through the fallback scorer and the blender -/

theorem getIndustryConfig_mem (k : String) :
    getIndustryConfig k ∈ industriesList := by
  unfold getIndustryConfig industriesList
  split_ifs <;> simp

theorem profile_weights_pos :
    ∀ pr ∈ industriesList, (∀ p ∈ pr.scoringWeights, 0 ≤ p.2) ∧
      0 < (pr.scoringWeights.map Prod.snd).sum := by
  intro pr hpr
  simp only [industriesList, List.mem_cons, List.not_mem_nil, or_false] at hpr
  rcases hpr with rfl | rfl | rfl | rfl | rfl | rfl <;>
    refine ⟨?_, by norm_num [technologyProfile, financeProfile,
      marketingProfile, healthcareProfile, salesProfile, generalProfile]⟩ <;>
    · intro p hp
      simp only [technologyProfile, financeProfile, marketingProfile,
        healthcareProfile, salesProfile, generalProfile] at hp
      fin_cases hp <;> norm_num

theorem clamp_add_one {x : ℚ} (h1 : 1 ≤ x) (h2 : x ≤ 10) :
    1 ≤ min 10 (x + 1) ∧ min 10 (x + 1) ≤ 10 :=
  ⟨le_min (by norm_num) (by linarith), min_le_left _ _⟩

theorem clamp_sub_one {x : ℚ} (h1 : 1 ≤ x) (h2 : x ≤ 10) :
    1 ≤ max 1 (x - 1) ∧ max 1 (x - 1) ≤ 10 :=
  ⟨le_max_left _ _, max_le (by norm_num) (by linarith)⟩

set_option maxHeartbeats 1000000 in
/-- The industry-specific adjustments keep all five scores in `[1, 10]`. -/
theorem industryAdjustScores_bounds (s : BasicScores) (ia : IndustryAnalysis)
    (hc : 1 ≤ s.content ∧ s.content ≤ 10)
    (hs : 1 ≤ s.structureScore ∧ s.structureScore ≤ 10)
    (hf : 1 ≤ s.formatting ∧ s.formatting ≤ 10)
    (hia : 1 ≤ s.industryAlignment ∧ s.industryAlignment ≤ 10)
    (hl : 1 ≤ s.lengthScore ∧ s.lengthScore ≤ 10) :
    (1 ≤ (industryAdjustScores s ia).content ∧
      (industryAdjustScores s ia).content ≤ 10) ∧
    (1 ≤ (industryAdjustScores s ia).structureScore ∧
      (industryAdjustScores s ia).structureScore ≤ 10) ∧
    (1 ≤ (industryAdjustScores s ia).formatting ∧
      (industryAdjustScores s ia).formatting ≤ 10) ∧
    (1 ≤ (industryAdjustScores s ia).industryAlignment ∧
      (industryAdjustScores s ia).industryAlignment ≤ 10) ∧
    (1 ≤ (industryAdjustScores s ia).lengthScore ∧
      (industryAdjustScores s ia).lengthScore ≤ 10) := by
  simp only [industryAdjustScores]
  split_ifs
  · exact ⟨clamp_add_one hc.1 hc.2, hs, hf, hia, clamp_sub_one hl.1 hl.2⟩
  · exact ⟨clamp_add_one hc.1 hc.2, hs, hf, hia, hl⟩
  · exact ⟨hc, hs, hf, hia, clamp_sub_one hl.1 hl.2⟩
  · exact ⟨hc, hs, hf, hia, hl⟩
  · exact ⟨clamp_add_one hc.1 hc.2, hs, hf, hia, hl⟩
  · exact ⟨hc, hs, hf, hia, hl⟩
  · exact ⟨hc, hs, hf, hia, clamp_add_one hl.1 hl.2⟩
  · exact ⟨hc, hs, hf, hia, hl⟩
  · exact ⟨hc, hs, hf, hia, hl⟩

set_option maxHeartbeats 2000000 in
/-- Every mapped category score stays in `[1, 10]` when the four source
fields do. -/
theorem mappedOrContent_bounds (adj : BasicScores)
    (hc : 1 ≤ adj.content ∧ adj.content ≤ 10)
    (hs : 1 ≤ adj.structureScore ∧ adj.structureScore ≤ 10)
    (hf : 1 ≤ adj.formatting ∧ adj.formatting ≤ 10)
    (hl : 1 ≤ adj.lengthScore ∧ adj.lengthScore ≤ 10) (c : String) :
    1 ≤ mappedOrContent adj c ∧ mappedOrContent adj c ≤ 10 := by
  unfold mappedOrContent mappedScore
  split_ifs <;> simp only [] <;>
    first
      | exact hc
      | (split_ifs <;> first | exact hc | exact hs | exact hf | exact hl)

theorem list_sum_div (l : List ℚ) (c : ℚ) :
    (l.map (fun x => x / c)).sum = l.sum / c := by
  induction l with
  | nil => simp
  | cons a t ih => simp [ih, add_div]

theorem list_sum_map_mul_left (l : List (String × ℚ)) (r : ℚ)
    (g : String × ℚ → ℚ) :
    (l.map (fun wc => r * g wc)).sum = r * (l.map g).sum := by
  induction l with
  | nil => simp
  | cons a t ih => simp [ih, mul_add]

/-- The normalized weighted blend of scores in `[1, 10]` is itself in
`[1, 10]`. -/
theorem weighted_blend_bounds (ws : List (String × ℚ)) (adj : BasicScores)
    (hw : ∀ p ∈ ws, 0 ≤ p.2) (hsum : 0 < (ws.map Prod.snd).sum)
    (hb : ∀ c, 1 ≤ mappedOrContent adj c ∧ mappedOrContent adj c ≤ 10) :
    1 ≤ (ws.map (fun wc =>
        mappedOrContent adj wc.1 * (wc.2 / (ws.map Prod.snd).sum))).sum ∧
    (ws.map (fun wc =>
        mappedOrContent adj wc.1 * (wc.2 / (ws.map Prod.snd).sum))).sum ≤ 10 := by
  have hsum1 : (ws.map (fun wc => wc.2 / (ws.map Prod.snd).sum)).sum = 1 := by
    have hmm : (ws.map (fun wc => wc.2 / (ws.map Prod.snd).sum)) =
        ((ws.map Prod.snd).map (fun x => x / (ws.map Prod.snd).sum)) := by
      rw [List.map_map]
      rfl
    rw [hmm, list_sum_div, div_self (ne_of_gt hsum)]
  constructor
  · have hlow : ∀ wc ∈ ws, (fun wc : String × ℚ =>
        1 * (wc.2 / (ws.map Prod.snd).sum)) wc ≤ (fun wc : String × ℚ =>
        mappedOrContent adj wc.1 * (wc.2 / (ws.map Prod.snd).sum)) wc := by
      intro wc hwc
      exact mul_le_mul_of_nonneg_right (hb wc.1).1
        (div_nonneg (hw wc hwc) (le_of_lt hsum))
    have h1 : (ws.map (fun wc : String × ℚ =>
        1 * (wc.2 / (ws.map Prod.snd).sum))).sum = 1 := by
      simpa using hsum1
    calc (1 : ℚ) = (ws.map (fun wc : String × ℚ =>
          1 * (wc.2 / (ws.map Prod.snd).sum))).sum := h1.symm
      _ ≤ _ := List.sum_le_sum hlow
  · have hhigh : ∀ wc ∈ ws, (fun wc : String × ℚ =>
        mappedOrContent adj wc.1 * (wc.2 / (ws.map Prod.snd).sum)) wc ≤
        (fun wc : String × ℚ =>
        10 * (wc.2 / (ws.map Prod.snd).sum)) wc := by
      intro wc hwc
      exact mul_le_mul_of_nonneg_right (hb wc.1).2
        (div_nonneg (hw wc hwc) (le_of_lt hsum))
    calc (ws.map (fun wc : String × ℚ =>
          mappedOrContent adj wc.1 * (wc.2 / (ws.map Prod.snd).sum))).sum
        ≤ (ws.map (fun wc : String × ℚ =>
          10 * (wc.2 / (ws.map Prod.snd).sum))).sum := List.sum_le_sum hhigh
      _ = 10 * (ws.map (fun wc : String × ℚ =>
          wc.2 / (ws.map Prod.snd).sum)).sum :=
        list_sum_map_mul_left ws 10 (fun wc => wc.2 / (ws.map Prod.snd).sum)
      _ = 10 := by rw [hsum1, mul_one]

/-- The five clamped fallback scores are all in `[1, 10]`. -/
theorem fallbackScores_bounds (text : List Char) (metrics : BasicMetrics)
    (ia : IndustryAnalysis) :
    (1 ≤ (fallbackScores text metrics ia).content ∧
      (fallbackScores text metrics ia).content ≤ 10) ∧
    (1 ≤ (fallbackScores text metrics ia).structureScore ∧
      (fallbackScores text metrics ia).structureScore ≤ 10) ∧
    (1 ≤ (fallbackScores text metrics ia).formatting ∧
      (fallbackScores text metrics ia).formatting ≤ 10) ∧
    (1 ≤ (fallbackScores text metrics ia).industryAlignment ∧
      (fallbackScores text metrics ia).industryAlignment ≤ 10) ∧
    (1 ≤ (fallbackScores text metrics ia).lengthScore ∧
      (fallbackScores text metrics ia).lengthScore ≤ 10) := by
  have hcontent : (5 : ℚ) ≤ fallbackContentScore text metrics := by
    unfold fallbackContentScore
    split_ifs <;> norm_num
  have hsbase : (3 : ℚ) ≤ fallbackStructureBase metrics := by
    have hcast : (0 : ℚ) ≤ ((fallbackSectionCount metrics : ℕ) : ℚ) :=
      Nat.cast_nonneg _
    exact le_min (by norm_num) (by linarith)
  have hstructure : (3 : ℚ) ≤ fallbackStructureScore metrics ia := by
    unfold fallbackStructureScore
    split_ifs <;> linarith
  have hformatting : (5 : ℚ) ≤ fallbackFormattingScore metrics := by
    unfold fallbackFormattingScore
    split_ifs <;> norm_num
  have habase : (3 : ℚ) ≤ fallbackAlignBase ia := by
    have hr : (0 : ℚ) ≤ fallbackKeywordRatio ia :=
      div_nonneg (Nat.cast_nonneg _) (Nat.cast_nonneg _)
    have hj : (0 : ℚ) ≤ (jsRound (fallbackKeywordRatio ia * 7) : ℚ) :=
      jsRound_nonneg (by positivity)
    exact le_min (by norm_num) (by linarith)
  have halign : (3 : ℚ) ≤ fallbackIndustryAlignmentScore ia := by
    have hbonus : (0 : ℚ) ≤ min 2 ((ia.criticalSkillsFound.length : ℕ) : ℚ) :=
      le_min (by norm_num) (Nat.cast_nonneg _)
    unfold fallbackIndustryAlignmentScore
    split_ifs <;> linarith
  have hlen : (1 : ℚ) ≤ fallbackLengthScore metrics ia ∧
      fallbackLengthScore metrics ia ≤ 10 := by
    unfold fallbackLengthScore
    split_ifs <;> norm_num
  refine ⟨⟨le_min (by norm_num) (by linarith), min_le_left _ _⟩,
          ⟨le_min (by norm_num) (by linarith), min_le_left _ _⟩,
          ⟨le_min (by norm_num) (by linarith), min_le_left _ _⟩,
          ⟨le_min (by norm_num) (by linarith), min_le_left _ _⟩,
          hlen⟩

/-- The industry-weighted blend of the fallback scores is in `[1, 10]`. -/
theorem calculateIndustryScore_bounds (text : List Char)
    (metrics : BasicMetrics) (k : String) :
    1 ≤ (calculateIndustryScore
        (fallbackScores text metrics (analyzeIndustryFit text k))
        (analyzeIndustryFit text k)).industryAdjustedOverall ∧
    (calculateIndustryScore
        (fallbackScores text metrics (analyzeIndustryFit text k))
        (analyzeIndustryFit text k)).industryAdjustedOverall ≤ 10 := by
  have hsb := fallbackScores_bounds text metrics (analyzeIndustryFit text k)
  have hadj := industryAdjustScores_bounds _ (analyzeIndustryFit text k)
    hsb.1 hsb.2.1 hsb.2.2.1 hsb.2.2.2.1 hsb.2.2.2.2
  have hmw := profile_weights_pos (getIndustryConfig k) (getIndustryConfig_mem k)
  have hweights : (analyzeIndustryFit text k).scoringWeights =
      (getIndustryConfig k).scoringWeights := rfl
  have hblend := weighted_blend_bounds
    (analyzeIndustryFit text k).scoringWeights
    (industryAdjustScores
      (fallbackScores text metrics (analyzeIndustryFit text k))
      (analyzeIndustryFit text k))
    (by rw [hweights]; exact hmw.1)
    (by rw [hweights]; exact hmw.2)
    (mappedOrContent_bounds _ hadj.1 hadj.2.1 hadj.2.2.1 hadj.2.2.2.2)
  simp only [calculateIndustryScore]
  constructor
  · exact_mod_cast jsRound_lower hblend.1
  · exact_mod_cast jsRound_upper hblend.2

/-- C4: on any input text and metrics, with the industry analysis derived
from the text, all five fallback sub-scores lie in `[1, 10]` and the
overall score equals the industry-weighted blend computed by
`calculateIndustryScore` (itself in `[1, 10]`, so in particular never the
`NaN`-like degenerate value the `||` fallback guards against). -/
theorem fallbackAnalysis_bounds_and_blend (text : List Char)
    (metrics : BasicMetrics) :
    (1 ≤ (fallbackAnalysis text metrics
        (analyzeIndustryFit text (detectIndustry text))).scores.content ∧
      (fallbackAnalysis text metrics
        (analyzeIndustryFit text (detectIndustry text))).scores.content ≤ 10) ∧
    (1 ≤ (fallbackAnalysis text metrics
        (analyzeIndustryFit text (detectIndustry text))).scores.structureScore ∧
      (fallbackAnalysis text metrics
        (analyzeIndustryFit text (detectIndustry text))).scores.structureScore ≤ 10) ∧
    (1 ≤ (fallbackAnalysis text metrics
        (analyzeIndustryFit text (detectIndustry text))).scores.formatting ∧
      (fallbackAnalysis text metrics
        (analyzeIndustryFit text (detectIndustry text))).scores.formatting ≤ 10) ∧
    (1 ≤ (fallbackAnalysis text metrics
        (analyzeIndustryFit text (detectIndustry text))).scores.industryAlignment ∧
      (fallbackAnalysis text metrics
        (analyzeIndustryFit text (detectIndustry text))).scores.industryAlignment ≤ 10) ∧
    (1 ≤ (fallbackAnalysis text metrics
        (analyzeIndustryFit text (detectIndustry text))).scores.lengthScore ∧
      (fallbackAnalysis text metrics
        (analyzeIndustryFit text (detectIndustry text))).scores.lengthScore ≤ 10) ∧
    (fallbackAnalysis text metrics
        (analyzeIndustryFit text (detectIndustry text))).overallScore =
      (calculateIndustryScore
        (fallbackAnalysis text metrics
          (analyzeIndustryFit text (detectIndustry text))).scores
        (analyzeIndustryFit text (detectIndustry text))).industryAdjustedOverall ∧
    (1 ≤ (fallbackAnalysis text metrics
        (analyzeIndustryFit text (detectIndustry text))).overallScore ∧
      (fallbackAnalysis text metrics
        (analyzeIndustryFit text (detectIndustry text))).overallScore ≤ 10) := by
  have hsb := fallbackScores_bounds text metrics
    (analyzeIndustryFit text (detectIndustry text))
  have hblend := calculateIndustryScore_bounds text metrics (detectIndustry text)
  have hz : (calculateIndustryScore
      (fallbackScores text metrics
        (analyzeIndustryFit text (detectIndustry text)))
      (analyzeIndustryFit text (detectIndustry text))).industryAdjustedOverall ≠
      0 := by
    intro h
    rw [h] at hblend
    norm_num at hblend
  have hscores : (fallbackAnalysis text metrics
      (analyzeIndustryFit text (detectIndustry text))).scores =
      fallbackScores text metrics
        (analyzeIndustryFit text (detectIndustry text)) := rfl
  have hoverall : (fallbackAnalysis text metrics
      (analyzeIndustryFit text (detectIndustry text))).overallScore =
      (calculateIndustryScore
        (fallbackScores text metrics
          (analyzeIndustryFit text (detectIndustry text)))
        (analyzeIndustryFit text (detectIndustry text))).industryAdjustedOverall := by
    show (if _ = 0 then _ else _) = _
    rw [if_neg hz]
  rw [hscores, hoverall]
  exact ⟨hsb.1, hsb.2.1, hsb.2.2.1, hsb.2.2.2.1, hsb.2.2.2.2, rfl, hblend⟩

end ResumeScreener
